import Mathlib

/-!
Shallow embedding of the mesh-quality analysis core of the 3d-model-viewer
repository (`MeshQualityAnalyzer`).  The C++ code works on single-precision
floats with `std::sqrt` / `std::acos`; the embedding is parametric over a
linear ordered field `F` together with two abstract unary operations
standing for those library calls (packed in `FloatOps`).  All other
arithmetic (addition, multiplication, division, comparisons, `std::min`,
`std::max`) is translated to the exact field operations.  Out-of-range
vector indexing is undefined behaviour in the source; the embedding totalises
it with `List.getD` and a default element.
-/

namespace MeshQA

/-- The two opaque unary float operations used by the analyzer. -/
structure FloatOps (F : Type) where
  sqrt : F → F
  acos : F → F

/-- A mesh vertex: position, shading normal, texture coordinate. -/
structure Vertex (F : Type) where
  x : F
  y : F
  z : F
  nx : F
  ny : F
  nz : F
  u : F
  v : F
deriving DecidableEq

/-- A mesh face: vertex-index ring plus parallel texcoord-index list. -/
structure Face where
  vertexIndices : List Nat
  texCoordIndices : List Nat
deriving DecidableEq

/-- The read-only input mesh. -/
structure Mesh (F : Type) where
  vertices : List (Vertex F)
  faces : List Face
deriving DecidableEq

/-- `MeshQualityAnalyzer::IssueType`, in source declaration order. -/
inductive IssueType where
  | degenerateFace
  | highAspectRatio
  | overlappingVertices
  | nonManifoldEdge
  | invertedNormal
  | highValenceVertex
  | lowValenceVertex
  | textureStretch
  | sharpAngle
deriving DecidableEq

/-- `MeshQualityAnalyzer::MeshIssue`. -/
structure MeshIssue (F : Type) where
  type : IssueType
  elementIndex : Nat
  severity : F
  relatedElements : List Nat
deriving DecidableEq

/-- `MeshQualityAnalyzer::MeshQualityMetrics`. -/
structure MeshQualityMetrics (F : Type) where
  minFaceArea : F
  maxFaceArea : F
  avgFaceArea : F
  minAspectRatio : F
  maxAspectRatio : F
  avgAspectRatio : F
  minDihedralAngle : F
  maxDihedralAngle : F
  nonManifoldEdgeCount : Nat
  degenerateFaceCount : Nat
  uvStretchFactor : F
deriving DecidableEq

/-- The analyzer's mutable instance fields. -/
structure AState (F : Type) where
  issues : List (MeshIssue F)
  metrics : MeshQualityMetrics F
  edgeFaceMap : List ((Nat × Nat) × List Nat)
  vertexConnectivity : List (List Nat)
deriving DecidableEq

section Defs

variable {F : Type} [LinearOrderedField F]

/-- `std::numeric_limits<float>::max()` = 2^128 - 2^104, as an exact value. -/
def fltMax : F := 340282346638528859811704183484516925440

/-- The `M_PI` literal `3.14159265358979323846` used by the source. -/
def piL : F := 314159265358979323846 / 100000000000000000000

/-- Default vertex used to totalise out-of-range vertex indexing (UB in C++). -/
def dV : Vertex F := ⟨0, 0, 0, 0, 0, 0, 0, 0⟩

/-- Default face used to totalise out-of-range face indexing (UB in C++). -/
def dFace : Face := ⟨[], []⟩

/-- `mesh.getVertices()[i]`. -/
def vtx (m : Mesh F) (i : Nat) : Vertex F := m.vertices.getD i dV

/-- `mesh.getFaces()[i]`. -/
def fc (m : Mesh F) (i : Nat) : Face := m.faces.getD i dFace

/-- `MeshQualityAnalyzer::calculateTriangleArea`. -/
def calculateTriangleArea (ops : FloatOps F) (m : Mesh F)
    (v1Idx v2Idx v3Idx : Nat) : F :=
  let v1 := vtx m v1Idx
  let v2 := vtx m v2Idx
  let v3 := vtx m v3Idx
  let ax := v2.x - v1.x
  let ay := v2.y - v1.y
  let az := v2.z - v1.z
  let bx := v3.x - v1.x
  let by' := v3.y - v1.y
  let bz := v3.z - v1.z
  let cx := ay * bz - az * by'
  let cy := az * bx - ax * bz
  let cz := ax * by' - ay * bx
  (1 / 2) * ops.sqrt (cx * cx + cy * cy + cz * cz)

/-- `MeshQualityAnalyzer::calculateDistance`. -/
def calculateDistance (ops : FloatOps F) (m : Mesh F) (v1Idx v2Idx : Nat) : F :=
  let v1 := vtx m v1Idx
  let v2 := vtx m v2Idx
  let dx := v2.x - v1.x
  let dy := v2.y - v1.y
  let dz := v2.z - v1.z
  ops.sqrt (dx * dx + dy * dy + dz * dz)

/-- `MeshQualityAnalyzer::calculateAspectRatio`. -/
def calculateAspectRatio (ops : FloatOps F) (m : Mesh F)
    (v1Idx v2Idx v3Idx : Nat) : F :=
  let edge1 := calculateDistance ops m v1Idx v2Idx
  let edge2 := calculateDistance ops m v2Idx v3Idx
  let edge3 := calculateDistance ops m v3Idx v1Idx
  let maxEdge := max edge1 (max edge2 edge3)
  let area := calculateTriangleArea ops m v1Idx v2Idx v3Idx
  let minHeight := if area > 1 / 1000000 then 2 * area / maxEdge else 0
  if minHeight > 1 / 1000000 then maxEdge / minHeight else fltMax

/-- `MeshQualityAnalyzer::calculateDihedralAngle`. -/
def calculateDihedralAngle (ops : FloatOps F) (m : Mesh F)
    (face1Idx face2Idx sharedV1Idx sharedV2Idx : Nat) : F :=
  let nonSharedV1 :=
    ((fc m face1Idx).vertexIndices.find?
      (fun idx => idx != sharedV1Idx && idx != sharedV2Idx)).getD 0
  let nonSharedV2 :=
    ((fc m face2Idx).vertexIndices.find?
      (fun idx => idx != sharedV1Idx && idx != sharedV2Idx)).getD 0
  let v1 := vtx m sharedV1Idx
  let v2 := vtx m sharedV2Idx
  let v3 := vtx m nonSharedV1
  let v4 := vtx m nonSharedV2
  let a1x := v2.x - v1.x
  let a1y := v2.y - v1.y
  let a1z := v2.z - v1.z
  let b1x := v3.x - v1.x
  let b1y := v3.y - v1.y
  let b1z := v3.z - v1.z
  let n1x := a1y * b1z - a1z * b1y
  let n1y := a1z * b1x - a1x * b1z
  let n1z := a1x * b1y - a1y * b1x
  let len1 := ops.sqrt (n1x * n1x + n1y * n1y + n1z * n1z)
  let n1x := if len1 > 1 / 1000000 then n1x / len1 else n1x
  let n1y := if len1 > 1 / 1000000 then n1y / len1 else n1y
  let n1z := if len1 > 1 / 1000000 then n1z / len1 else n1z
  let a2x := v2.x - v1.x
  let a2y := v2.y - v1.y
  let a2z := v2.z - v1.z
  let b2x := v4.x - v1.x
  let b2y := v4.y - v1.y
  let b2z := v4.z - v1.z
  let n2x := a2y * b2z - a2z * b2y
  let n2y := a2z * b2x - a2x * b2z
  let n2z := a2x * b2y - a2y * b2x
  let len2 := ops.sqrt (n2x * n2x + n2y * n2y + n2z * n2z)
  let n2x := if len2 > 1 / 1000000 then n2x / len2 else n2x
  let n2y := if len2 > 1 / 1000000 then n2y / len2 else n2y
  let n2z := if len2 > 1 / 1000000 then n2z / len2 else n2z
  let dotProduct := n1x * n2x + n1y * n2y + n1z * n2z
  let dotProduct := max (-1) (min 1 dotProduct)
  ops.acos dotProduct * 180 / piL

/-- `MeshQualityAnalyzer::calculateUVStretch`. -/
def calculateUVStretch (ops : FloatOps F) (m : Mesh F) (faceIdx : Nat) : F :=
  let face := fc m faceIdx
  if face.vertexIndices.length < 3 || face.texCoordIndices.length < 3 then 0
  else
    let v1Idx := face.vertexIndices.getD 0 0
    let v2Idx := face.vertexIndices.getD 1 0
    let v3Idx := face.vertexIndices.getD 2 0
    let v1 := vtx m v1Idx
    let v2 := vtx m v2Idx
    let v3 := vtx m v3Idx
    let surfaceArea := calculateTriangleArea ops m v1Idx v2Idx v3Idx
    let u1 := v1.u
    let v1uv := v1.v
    let u2 := v2.u
    let v2uv := v2.v
    let u3 := v3.u
    let v3uv := v3.v
    let uvArea := (1 / 2) * |(u2 - u1) * (v3uv - v1uv) - (u3 - u1) * (v2uv - v1uv)|
    if surfaceArea < 1 / 1000000 || uvArea < 1 / 1000000 then 0
    else max (surfaceArea / uvArea) (uvArea / surfaceArea)

/-- The UV-space triangle area computed inside `calculateUVStretch`
(absolute value of half the signed cross product of the first three
vertices' texture coordinates). -/
def uvMapArea (m : Mesh F) (faceIdx : Nat) : F :=
  let face := fc m faceIdx
  let v1 := vtx m (face.vertexIndices.getD 0 0)
  let v2 := vtx m (face.vertexIndices.getD 1 0)
  let v3 := vtx m (face.vertexIndices.getD 2 0)
  (1 / 2) * |(v2.u - v1.u) * (v3.v - v1.v) - (v3.u - v1.u) * (v2.v - v1.v)|

/-- The longest-edge value computed inside `calculateAspectRatio`. -/
def maxEdgeOf (ops : FloatOps F) (m : Mesh F) (v1Idx v2Idx v3Idx : Nat) : F :=
  max (calculateDistance ops m v1Idx v2Idx)
    (max (calculateDistance ops m v2Idx v3Idx)
      (calculateDistance ops m v3Idx v1Idx))

/-- The guarded minimum-height value computed inside
`calculateAspectRatio`. -/
def minHeightOf (ops : FloatOps F) (m : Mesh F) (v1Idx v2Idx v3Idx : Nat) :
    F :=
  if calculateTriangleArea ops m v1Idx v2Idx v3Idx > 1 / 1000000 then
    2 * calculateTriangleArea ops m v1Idx v2Idx v3Idx /
      maxEdgeOf ops m v1Idx v2Idx v3Idx
  else 0

/-- Edge normalisation: `if (v1 > v2) std::swap(v1, v2)`. -/
def edgeKey (a b : Nat) : Nat × Nat := if a > b then (b, a) else (a, b)

/-- Strict lexicographic order on edge keys: the `std::map` key order. -/
def pairLt (p q : Nat × Nat) : Bool :=
  p.1 < q.1 || (p.1 == q.1 && p.2 < q.2)

/-- `edgeFaceMap[{v1,v2}].push_back(faceIdx)` on the sorted association list
that models the `std::map`. -/
def mapInsert (k : Nat × Nat) (v : Nat) :
    List ((Nat × Nat) × List Nat) → List ((Nat × Nat) × List Nat)
  | [] => [(k, [v])]
  | (k', vs) :: rest =>
    if k == k' then (k', vs ++ [v]) :: rest
    else if pairLt k k' then (k, [v]) :: (k', vs) :: rest
    else (k', vs) :: mapInsert k v rest

/-- Insert `v2` into `vertexConnectivity[v1]` unless already present
(`std::find` before `push_back`).  Out-of-range `v1` is UB in the source;
`List.set` makes it a no-op. -/
def addAdj (vc : List (List Nat)) (v1 v2 : Nat) : List (List Nat) :=
  let l := vc.getD v1 []
  if l.contains v2 then vc else vc.set v1 (l ++ [v2])

/-- Loop body of `buildTopology` for edge `i` of face `faceIdx`. -/
def topoEdgeStep (face : Face) (faceIdx : Nat)
    (acc : List ((Nat × Nat) × List Nat) × List (List Nat)) (i : Nat) :
    List ((Nat × Nat) × List Nat) × List (List Nat) :=
  let n := face.vertexIndices.length
  let v1 := face.vertexIndices.getD i 0
  let v2 := face.vertexIndices.getD ((i + 1) % n) 0
  let e := edgeKey v1 v2
  (mapInsert e faceIdx acc.1, addAdj (addAdj acc.2 e.1 e.2) e.2 e.1)

/-- `MeshQualityAnalyzer::buildTopology`: the edge→faces map and the vertex
adjacency lists, rebuilt from scratch (`clear`, `resize` + per-entry `clear`). -/
def buildTopology {F : Type} (m : Mesh F) :
    List ((Nat × Nat) × List Nat) × List (List Nat) :=
  (List.range m.faces.length).foldl
    (fun acc faceIdx =>
      let face := m.faces.getD faceIdx dFace
      (List.range face.vertexIndices.length).foldl
        (topoEdgeStep face faceIdx) acc)
    ([], List.replicate m.vertices.length [])

/-- The metrics record as set by the `MeshQualityAnalyzer` constructor. -/
def initMetrics : MeshQualityMetrics F :=
  ⟨fltMax, 0, 0, fltMax, 0, 0, fltMax, 0, 0, 0, 0⟩

/-- Freshly constructed analyzer state. -/
def initState : AState F := ⟨[], initMetrics, [], []⟩

/-- The leading-triangle area of face `faceIdx` (the value computed inside
the degenerate-face loop). -/
def faceArea (ops : FloatOps F) (m : Mesh F) (faceIdx : Nat) : F :=
  let face := fc m faceIdx
  calculateTriangleArea ops m (face.vertexIndices.getD 0 0)
    (face.vertexIndices.getD 1 0) (face.vertexIndices.getD 2 0)

/-- The leading-triangle aspect ratio of face `faceIdx`. -/
def faceAspect (ops : FloatOps F) (m : Mesh F) (faceIdx : Nat) : F :=
  let face := m.faces.getD faceIdx dFace
  calculateAspectRatio ops m (face.vertexIndices.getD 0 0)
    (face.vertexIndices.getD 1 0) (face.vertexIndices.getD 2 0)

/-- Loop body of `checkDegenerateFaces` (state, running total/min/max area). -/
def degBody (ops : FloatOps F) (m : Mesh F) (acc : AState F × F × F × F)
    (faceIdx : Nat) : AState F × F × F × F :=
  let face := m.faces.getD faceIdx dFace
  if face.vertexIndices.length < 3 then acc
  else
    let area := faceArea ops m faceIdx
    let st' :=
      if area < 1 / 100000 then
        { acc.1 with
          issues := acc.1.issues ++
            [⟨IssueType.degenerateFace, faceIdx,
              1 - area / (1 / 100000), face.vertexIndices⟩],
          metrics := { acc.1.metrics with
            degenerateFaceCount := acc.1.metrics.degenerateFaceCount + 1 } }
      else acc.1
    (st', acc.2.1 + area, min acc.2.2.1 area, max acc.2.2.2 area)

/-- `MeshQualityAnalyzer::checkDegenerateFaces`. -/
def checkDegenerateFaces (ops : FloatOps F) (m : Mesh F) (st : AState F) :
    AState F :=
  let r := (List.range m.faces.length).foldl (degBody ops m) (st, 0, fltMax, 0)
  if 0 < m.faces.length then
    { r.1 with metrics := { r.1.metrics with
        minFaceArea := r.2.2.1,
        maxFaceArea := r.2.2.2,
        avgFaceArea := r.2.1 / (m.faces.length : F) } }
  else r.1

/-- Loop body of `checkAspectRatio`. -/
def aspBody (ops : FloatOps F) (m : Mesh F) (acc : AState F × F × F × F)
    (faceIdx : Nat) : AState F × F × F × F :=
  let face := m.faces.getD faceIdx dFace
  if face.vertexIndices.length < 3 then acc
  else
    let aspectRatio := faceAspect ops m faceIdx
    let st' :=
      if aspectRatio > 10 then
        { acc.1 with
          issues := acc.1.issues ++
            [⟨IssueType.highAspectRatio, faceIdx,
              min 1 ((aspectRatio - 10) / 30), face.vertexIndices⟩] }
      else acc.1
    (st', acc.2.1 + aspectRatio, min acc.2.2.1 aspectRatio,
      max acc.2.2.2 aspectRatio)

/-- `MeshQualityAnalyzer::checkAspectRatio`. -/
def checkAspectRatio (ops : FloatOps F) (m : Mesh F) (st : AState F) :
    AState F :=
  let r := (List.range m.faces.length).foldl (aspBody ops m) (st, 0, fltMax, 0)
  if 0 < m.faces.length then
    { r.1 with metrics := { r.1.metrics with
        minAspectRatio := r.2.2.1,
        maxAspectRatio := r.2.2.2,
        avgAspectRatio := r.2.1 / (m.faces.length : F) } }
  else r.1

/-- Loop body of `checkNonManifoldEdges`. -/
def nmBody (acc : AState F) (ef : (Nat × Nat) × List Nat) : AState F :=
  if ef.2.length > 2 then
    { acc with
      issues := acc.issues ++
        [⟨IssueType.nonManifoldEdge, ef.1.1,
          min 1 (((ef.2.length - 2 : Nat) : F) / 4), [ef.1.2]⟩],
      metrics := { acc.metrics with
        nonManifoldEdgeCount := acc.metrics.nonManifoldEdgeCount + 1 } }
  else acc

/-- `MeshQualityAnalyzer::checkNonManifoldEdges`. -/
def checkNonManifoldEdges (st : AState F) : AState F :=
  st.edgeFaceMap.foldl nmBody st

/-- Loop body of `checkVertexValence` over the fixed connectivity table. -/
def valBody (vc : List (List Nat)) (acc : AState F) (vertexIdx : Nat) :
    AState F :=
  let conn := vc.getD vertexIdx []
  let valence := conn.length
  let acc :=
    if 0 < valence ∧ valence < 3 then
      { acc with issues := acc.issues ++
          [⟨IssueType.lowValenceVertex, vertexIdx,
            1 - (valence : F) / 3, conn⟩] }
    else acc
  if valence > 12 then
    { acc with issues := acc.issues ++
        [⟨IssueType.highValenceVertex, vertexIdx,
          min 1 (((valence - 12 : Nat) : F) / 8), conn⟩] }
  else acc

/-- `MeshQualityAnalyzer::checkVertexValence`. -/
def checkVertexValence (st : AState F) : AState F :=
  (List.range st.vertexConnectivity.length).foldl
    (valBody st.vertexConnectivity) st

/-- The `i < j` index pairs enumerated by the nested overlap loops, in
iteration order. -/
def allPairs (n : Nat) : List (Nat × Nat) :=
  (List.range n).flatMap (fun i =>
    (List.range' (i + 1) (n - (i + 1))).map (fun j => (i, j)))

/-- Squared distance between vertices `i` and `j` as computed inline by
`checkOverlappingVertices`. -/
def vDistSq (m : Mesh F) (i j : Nat) : F :=
  let v1 := vtx m i
  let v2 := vtx m j
  let dx := v2.x - v1.x
  let dy := v2.y - v1.y
  let dz := v2.z - v1.z
  dx * dx + dy * dy + dz * dz

/-- Loop body of `checkOverlappingVertices` for the pair `p = (i, j)`. -/
def ovBody (ops : FloatOps F) (m : Mesh F) (acc : AState F) (p : Nat × Nat) :
    AState F :=
  let distSq := vDistSq m p.1 p.2
  if distSq < (1 / 10000) * (1 / 10000) then
    { acc with issues := acc.issues ++
        [⟨IssueType.overlappingVertices, p.1,
          1 - ops.sqrt distSq / (1 / 10000), [p.2]⟩] }
  else acc

/-- `MeshQualityAnalyzer::checkOverlappingVertices`. -/
def checkOverlappingVertices (ops : FloatOps F) (m : Mesh F) (st : AState F) :
    AState F :=
  (allPairs m.vertices.length).foldl (ovBody ops m) st

/-- Loop body of `checkNormalDirection`. -/
def nrmBody (ops : FloatOps F) (m : Mesh F) (acc : AState F) (faceIdx : Nat) :
    AState F :=
  let face := m.faces.getD faceIdx dFace
  if face.vertexIndices.length < 3 then acc
  else
    let v1 := vtx m (face.vertexIndices.getD 0 0)
    let v2 := vtx m (face.vertexIndices.getD 1 0)
    let v3 := vtx m (face.vertexIndices.getD 2 0)
    let e1x := v2.x - v1.x
    let e1y := v2.y - v1.y
    let e1z := v2.z - v1.z
    let e2x := v3.x - v1.x
    let e2y := v3.y - v1.y
    let e2z := v3.z - v1.z
    let nx := e1y * e2z - e1z * e2y
    let ny := e1z * e2x - e1x * e2z
    let nz := e1x * e2y - e1y * e2x
    let len := ops.sqrt (nx * nx + ny * ny + nz * nz)
    if len > 1 / 1000000 then
      let nx := nx / len
      let ny := ny / len
      let nz := nz / len
      let vnx := (v1.nx + v2.nx + v3.nx) / 3
      let vny := (v1.ny + v2.ny + v3.ny) / 3
      let vnz := (v1.nz + v2.nz + v3.nz) / 3
      let vnLen := ops.sqrt (vnx * vnx + vny * vny + vnz * vnz)
      if vnLen > 1 / 1000000 then
        let vnx := vnx / vnLen
        let vny := vny / vnLen
        let vnz := vnz / vnLen
        let dotProduct := nx * vnx + ny * vny + nz * vnz
        if dotProduct < 0 then
          { acc with issues := acc.issues ++
              [⟨IssueType.invertedNormal, faceIdx,
                min 1 (-dotProduct), face.vertexIndices⟩] }
        else acc
      else acc
    else acc

/-- `MeshQualityAnalyzer::checkNormalDirection`. -/
def checkNormalDirection (ops : FloatOps F) (m : Mesh F) (st : AState F) :
    AState F :=
  (List.range m.faces.length).foldl (nrmBody ops m) st

/-- Loop body of `checkUVStretch` (state, running total, measurable count). -/
def uvBody (ops : FloatOps F) (m : Mesh F) (acc : AState F × F × Nat)
    (faceIdx : Nat) : AState F × F × Nat :=
  let stretch := calculateUVStretch ops m faceIdx
  if stretch > 0 then
    let st' :=
      if stretch > 4 then
        { acc.1 with issues := acc.1.issues ++
            [⟨IssueType.textureStretch, faceIdx,
              min 1 ((stretch - 4) / 6),
              (m.faces.getD faceIdx dFace).vertexIndices⟩] }
      else acc.1
    (st', acc.2.1 + stretch, acc.2.2 + 1)
  else acc

/-- `MeshQualityAnalyzer::checkUVStretch`. -/
def checkUVStretch (ops : FloatOps F) (m : Mesh F) (st : AState F) :
    AState F :=
  let r := (List.range m.faces.length).foldl (uvBody ops m) (st, 0, 0)
  if 0 < r.2.2 then
    { r.1 with metrics := { r.1.metrics with
        uvStretchFactor := r.2.1 / (r.2.2 : F) } }
  else r.1

/-- The dihedral angle computed by `checkSharpAngles` for map entry `ef`. -/
def edgeAngle (ops : FloatOps F) (m : Mesh F) (ef : (Nat × Nat) × List Nat) :
    F :=
  calculateDihedralAngle ops m (ef.2.getD 0 0) (ef.2.getD 1 0) ef.1.1 ef.1.2

/-- Loop body of `checkSharpAngles`. -/
def sharpBody (ops : FloatOps F) (m : Mesh F) (acc : AState F)
    (ef : (Nat × Nat) × List Nat) : AState F :=
  if ef.2.length == 2 then
    let angle := edgeAngle ops m ef
    let acc :=
      if angle < acc.metrics.minDihedralAngle ∨
          acc.metrics.minDihedralAngle < 1 / 10 then
        { acc with metrics :=
            { acc.metrics with minDihedralAngle := angle } }
      else acc
    let acc :=
      if angle > acc.metrics.maxDihedralAngle then
        { acc with metrics :=
            { acc.metrics with maxDihedralAngle := angle } }
      else acc
    if angle < 30 then
      { acc with issues := acc.issues ++
          [⟨IssueType.sharpAngle, ef.1.1, 1 - angle / 30, [ef.1.2]⟩] }
    else acc
  else acc

/-- `MeshQualityAnalyzer::checkSharpAngles`. -/
def checkSharpAngles (ops : FloatOps F) (m : Mesh F) (st : AState F) :
    AState F :=
  st.edgeFaceMap.foldl (sharpBody ops m) st

/-- `MeshQualityAnalyzer::analyzeQuality` (`calculateOverallMetrics` has an
empty body). -/
def analyzeQuality (ops : FloatOps F) (m : Mesh F) (st : AState F) :
    AState F :=
  let topo := buildTopology m
  let st0 : AState F :=
    { st with issues := [], edgeFaceMap := topo.1, vertexConnectivity := topo.2 }
  checkSharpAngles ops m
    (checkUVStretch ops m
      (checkNormalDirection ops m
        (checkOverlappingVertices ops m
          (checkVertexValence
            (checkNonManifoldEdges
              (checkAspectRatio ops m
                (checkDegenerateFaces ops m st0)))))))

/-- `MeshQualityAnalyzer::getIssues`. -/
def getIssues (st : AState F) : List (MeshIssue F) := st.issues

/-- `MeshQualityAnalyzer::getIssuesByType` (loop + conditional `push_back`). -/
def getIssuesByType (st : AState F) (t : IssueType) : List (MeshIssue F) :=
  st.issues.foldl
    (fun acc issue => if issue.type = t then acc ++ [issue] else acc) []

/-- `MeshQualityAnalyzer::getIssuesBySeverity` (inclusive `>=`). -/
def getIssuesBySeverity (st : AState F) (minSeverity : F) :
    List (MeshIssue F) :=
  st.issues.foldl
    (fun acc issue => if issue.severity ≥ minSeverity then acc ++ [issue]
      else acc) []

/-! Pure descriptions of each pass's output, used to state the
decomposition lemmas.  Each `...Opt` gives the issue the loop body pushes at
one iteration (if any); each `...Agg` replays the body's running
aggregates. -/

/-- The degenerate-face issue pushed for `faceIdx`, if any. -/
def degOpt (ops : FloatOps F) (m : Mesh F) (faceIdx : Nat) :
    Option (MeshIssue F) :=
  let face := m.faces.getD faceIdx dFace
  if face.vertexIndices.length < 3 then none
  else if faceArea ops m faceIdx < 1 / 100000 then
    some ⟨IssueType.degenerateFace, faceIdx,
      1 - faceArea ops m faceIdx / (1 / 100000), face.vertexIndices⟩
  else none

/-- Aggregate step for `checkDegenerateFaces` (total, min, max area). -/
def degAggStep (ops : FloatOps F) (m : Mesh F) (acc : F × F × F)
    (faceIdx : Nat) : F × F × F :=
  if (m.faces.getD faceIdx dFace).vertexIndices.length < 3 then acc
  else (acc.1 + faceArea ops m faceIdx, min acc.2.1 (faceArea ops m faceIdx),
    max acc.2.2 (faceArea ops m faceIdx))

/-- Total/min/max leading-triangle area over all faces. -/
def degAgg (ops : FloatOps F) (m : Mesh F) : F × F × F :=
  (List.range m.faces.length).foldl (degAggStep ops m) (0, fltMax, 0)

/-- All degenerate-face issues, in detection order. -/
def degIssuesOf (ops : FloatOps F) (m : Mesh F) : List (MeshIssue F) :=
  (List.range m.faces.length).filterMap (degOpt ops m)

/-- The high-aspect-ratio issue pushed for `faceIdx`, if any. -/
def aspOpt (ops : FloatOps F) (m : Mesh F) (faceIdx : Nat) :
    Option (MeshIssue F) :=
  let face := m.faces.getD faceIdx dFace
  if face.vertexIndices.length < 3 then none
  else if faceAspect ops m faceIdx > 10 then
    some ⟨IssueType.highAspectRatio, faceIdx,
      min 1 ((faceAspect ops m faceIdx - 10) / 30), face.vertexIndices⟩
  else none

/-- Aggregate step for `checkAspectRatio`. -/
def aspAggStep (ops : FloatOps F) (m : Mesh F) (acc : F × F × F)
    (faceIdx : Nat) : F × F × F :=
  if (m.faces.getD faceIdx dFace).vertexIndices.length < 3 then acc
  else (acc.1 + faceAspect ops m faceIdx,
    min acc.2.1 (faceAspect ops m faceIdx),
    max acc.2.2 (faceAspect ops m faceIdx))

/-- Total/min/max leading-triangle aspect ratio over all faces. -/
def aspAgg (ops : FloatOps F) (m : Mesh F) : F × F × F :=
  (List.range m.faces.length).foldl (aspAggStep ops m) (0, fltMax, 0)

/-- All high-aspect-ratio issues, in detection order. -/
def aspIssuesOf (ops : FloatOps F) (m : Mesh F) : List (MeshIssue F) :=
  (List.range m.faces.length).filterMap (aspOpt ops m)

/-- The non-manifold-edge issue pushed for map entry `ef`, if any. -/
def nmOpt (ef : (Nat × Nat) × List Nat) : Option (MeshIssue F) :=
  if ef.2.length > 2 then
    some ⟨IssueType.nonManifoldEdge, ef.1.1,
      min 1 (((ef.2.length - 2 : Nat) : F) / 4), [ef.1.2]⟩
  else none

/-- All non-manifold-edge issues produced from an edge→faces map. -/
def nmIssuesOf (efm : List ((Nat × Nat) × List Nat)) : List (MeshIssue F) :=
  efm.filterMap nmOpt

/-- The valence issues pushed for `vertexIdx` (low then high). -/
def valList (vc : List (List Nat)) (vertexIdx : Nat) : List (MeshIssue F) :=
  let conn := vc.getD vertexIdx []
  let valence := conn.length
  (if 0 < valence ∧ valence < 3 then
    [⟨IssueType.lowValenceVertex, vertexIdx, 1 - (valence : F) / 3, conn⟩]
  else []) ++
  (if valence > 12 then
    [⟨IssueType.highValenceVertex, vertexIdx,
      min 1 (((valence - 12 : Nat) : F) / 8), conn⟩]
  else [])

/-- All valence issues produced from a connectivity table. -/
def valIssuesOf (vc : List (List Nat)) : List (MeshIssue F) :=
  (List.range vc.length).flatMap (valList vc)

/-- The overlapping-vertices issue pushed for pair `p`, if any. -/
def ovOpt (ops : FloatOps F) (m : Mesh F) (p : Nat × Nat) :
    Option (MeshIssue F) :=
  if vDistSq m p.1 p.2 < (1 / 10000) * (1 / 10000) then
    some ⟨IssueType.overlappingVertices, p.1,
      1 - ops.sqrt (vDistSq m p.1 p.2) / (1 / 10000), [p.2]⟩
  else none

/-- All overlapping-vertices issues, in loop order. -/
def ovIssuesOf (ops : FloatOps F) (m : Mesh F) : List (MeshIssue F) :=
  (allPairs m.vertices.length).filterMap (ovOpt ops m)

/-- The inverted-normal issue pushed for `faceIdx`, if any. -/
def nrmOpt (ops : FloatOps F) (m : Mesh F) (faceIdx : Nat) :
    Option (MeshIssue F) :=
  let face := m.faces.getD faceIdx dFace
  if face.vertexIndices.length < 3 then none
  else
    let v1 := vtx m (face.vertexIndices.getD 0 0)
    let v2 := vtx m (face.vertexIndices.getD 1 0)
    let v3 := vtx m (face.vertexIndices.getD 2 0)
    let e1x := v2.x - v1.x
    let e1y := v2.y - v1.y
    let e1z := v2.z - v1.z
    let e2x := v3.x - v1.x
    let e2y := v3.y - v1.y
    let e2z := v3.z - v1.z
    let nx := e1y * e2z - e1z * e2y
    let ny := e1z * e2x - e1x * e2z
    let nz := e1x * e2y - e1y * e2x
    let len := ops.sqrt (nx * nx + ny * ny + nz * nz)
    if len > 1 / 1000000 then
      let nx := nx / len
      let ny := ny / len
      let nz := nz / len
      let vnx := (v1.nx + v2.nx + v3.nx) / 3
      let vny := (v1.ny + v2.ny + v3.ny) / 3
      let vnz := (v1.nz + v2.nz + v3.nz) / 3
      let vnLen := ops.sqrt (vnx * vnx + vny * vny + vnz * vnz)
      if vnLen > 1 / 1000000 then
        let vnx := vnx / vnLen
        let vny := vny / vnLen
        let vnz := vnz / vnLen
        let dotProduct := nx * vnx + ny * vny + nz * vnz
        if dotProduct < 0 then
          some ⟨IssueType.invertedNormal, faceIdx, min 1 (-dotProduct),
            face.vertexIndices⟩
        else none
      else none
    else none

/-- All inverted-normal issues, in detection order. -/
def nrmIssuesOf (ops : FloatOps F) (m : Mesh F) : List (MeshIssue F) :=
  (List.range m.faces.length).filterMap (nrmOpt ops m)

/-- The texture-stretch issue pushed for `faceIdx`, if any. -/
def uvOpt (ops : FloatOps F) (m : Mesh F) (faceIdx : Nat) :
    Option (MeshIssue F) :=
  let stretch := calculateUVStretch ops m faceIdx
  if stretch > 0 then
    if stretch > 4 then
      some ⟨IssueType.textureStretch, faceIdx, min 1 ((stretch - 4) / 6),
        (m.faces.getD faceIdx dFace).vertexIndices⟩
    else none
  else none

/-- Aggregate step for `checkUVStretch` (running total, measurable count). -/
def uvAggStep (ops : FloatOps F) (m : Mesh F) (acc : F × Nat)
    (faceIdx : Nat) : F × Nat :=
  let stretch := calculateUVStretch ops m faceIdx
  if stretch > 0 then (acc.1 + stretch, acc.2 + 1) else acc

/-- Total stretch and measurable-face count over all faces. -/
def uvAgg (ops : FloatOps F) (m : Mesh F) : F × Nat :=
  (List.range m.faces.length).foldl (uvAggStep ops m) (0, 0)

/-- All texture-stretch issues, in detection order. -/
def uvIssuesOf (ops : FloatOps F) (m : Mesh F) : List (MeshIssue F) :=
  (List.range m.faces.length).filterMap (uvOpt ops m)

/-- The sharp-angle issue pushed for map entry `ef`, if any. -/
def sharpOpt (ops : FloatOps F) (m : Mesh F) (ef : (Nat × Nat) × List Nat) :
    Option (MeshIssue F) :=
  if ef.2.length == 2 then
    if edgeAngle ops m ef < 30 then
      some ⟨IssueType.sharpAngle, ef.1.1, 1 - edgeAngle ops m ef / 30,
        [ef.1.2]⟩
    else none
  else none

/-- All sharp-angle issues produced from an edge→faces map. -/
def sharpIssuesOf (ops : FloatOps F) (m : Mesh F)
    (efm : List ((Nat × Nat) × List Nat)) : List (MeshIssue F) :=
  efm.filterMap (sharpOpt ops m)

/-- The dihedral angles of the manifold (2-face) edges, in map order. -/
def anglesOf (ops : FloatOps F) (m : Mesh F)
    (efm : List ((Nat × Nat) × List Nat)) : List F :=
  efm.filterMap (fun ef =>
    if ef.2.length == 2 then some (edgeAngle ops m ef) else none)

/-- The min-dihedral-angle update rule of `checkSharpAngles` for one
observed angle. -/
def minDStep (mcur a : F) : F :=
  if a < mcur ∨ mcur < 1 / 10 then a else mcur

/-- The max-dihedral-angle update rule for one observed angle. -/
def maxDStep (mcur a : F) : F :=
  if a > mcur then a else mcur

/-- The min-dihedral-angle rule folded over a list of observed angles. -/
def minDFold (m0 : F) (as : List F) : F := as.foldl minDStep m0

/-- The max-dihedral-angle rule folded over observed angles. -/
def maxDFold (m0 : F) (as : List F) : F := as.foldl maxDStep m0

/-- All issues of one full `analyzeQuality` run, in detection order. -/
def allIssuesOf (ops : FloatOps F) (m : Mesh F) : List (MeshIssue F) :=
  degIssuesOf ops m ++ aspIssuesOf ops m ++
    nmIssuesOf (buildTopology m).1 ++ valIssuesOf (buildTopology m).2 ++
    ovIssuesOf ops m ++ nrmIssuesOf ops m ++ uvIssuesOf ops m ++
    sharpIssuesOf ops m (buildTopology m).1

/-- Strict key-sortedness of the association list modelling the
`std::map`. -/
def SortedKeys (l : List ((Nat × Nat) × List Nat)) : Prop :=
  List.Pairwise (fun x y => pairLt x.1 y.1 = true) l

/-- The predicate identifying the Non-Manifold Edge issue reported for the
edge key `e`. -/
def nmPred {F : Type} [LinearOrderedField F] (e : Nat × Nat)
    (iss : MeshIssue F) : Bool :=
  iss.type == IssueType.nonManifoldEdge && iss.elementIndex == e.1 &&
    iss.relatedElements == [e.2]

/-- A vertex at position `(a, b, c)` with zero normal and zero UV. -/
def cV {F : Type} [LinearOrderedField F] (a b c : F) : Vertex F :=
  ⟨a, b, c, 0, 0, 0, 0, 0⟩

/-- Concrete float operations over `ℚ` that agree with the library functions
on every point at which the fixtures below evaluate them
(`sqrt 0 = 0`, `acos` never reached or applied to `1` where the fixture only
uses the result's range). -/
def stubOps : FloatOps ℚ := ⟨fun _ => 0, fun _ => 0⟩

/-- Fixture: one fully collapsed face (all three corners are vertex 0). -/
def degMesh : Mesh ℚ := ⟨[cV 0 0 0], [⟨[0, 0, 0], []⟩]⟩

/-- Fixture: two coincident vertices and no faces. -/
def ovMesh : Mesh ℚ := ⟨[cV 0 0 0, cV 0 0 0], []⟩

/-- Fixture: three triangles sharing the edge `(0, 1)`. -/
def nmMesh : Mesh ℚ :=
  ⟨[cV 0 0 0, cV 1 0 0, cV 0 1 0, cV 0 0 1, cV 1 1 1],
    [⟨[0, 1, 2], []⟩, ⟨[0, 1, 3], []⟩, ⟨[0, 1, 4], []⟩]⟩

/-- Fixture: a single two-vertex (degenerate) face. -/
def edgeMesh : Mesh ℚ := ⟨[cV 0 0 0, cV 1 0 0], [⟨[0, 1], []⟩]⟩

/-- Fixture: the right triangle `(0,0,0), (1,0,0), (0,1,0)` over any field,
with texcoords present. -/
def triMesh {F : Type} [LinearOrderedField F] : Mesh F :=
  ⟨[cV 0 0 0, cV 1 0 0, cV 0 1 0], [⟨[0, 1, 2], [0, 1, 2]⟩]⟩

end Defs

section PassLemmas

variable {F : Type} [LinearOrderedField F]

lemma degBody_eq (ops : FloatOps F) (m : Mesh F) (acc : AState F × F × F × F)
    (i : Nat) :
    degBody ops m acc i =
      ({ acc.1 with
          issues := acc.1.issues ++ (degOpt ops m i).toList,
          metrics := { acc.1.metrics with
            degenerateFaceCount := acc.1.metrics.degenerateFaceCount +
              (degOpt ops m i).toList.length } },
        degAggStep ops m acc.2 i) := by
  simp only [degBody, degOpt, degAggStep]
  by_cases h3 : (m.faces.getD i dFace).vertexIndices.length < 3
  · simp only [if_pos h3]; simp
  · simp only [if_neg h3]
    by_cases h4 : faceArea ops m i < 1 / 100000
    · simp only [if_pos h4]; simp
    · simp only [if_neg h4]; simp

lemma degFold (ops : FloatOps F) (m : Mesh F) (l : List Nat) :
    ∀ (st : AState F) (acc2 : F × F × F),
      l.foldl (degBody ops m) (st, acc2) =
        ({ st with
            issues := st.issues ++ l.filterMap (degOpt ops m),
            metrics := { st.metrics with
              degenerateFaceCount := st.metrics.degenerateFaceCount +
                (l.filterMap (degOpt ops m)).length } },
          l.foldl (degAggStep ops m) acc2) := by
  induction l with
  | nil => intro st acc2; simp
  | cons a l ih =>
    intro st acc2
    rw [List.foldl_cons, List.foldl_cons, degBody_eq, ih]
    rcases h : degOpt ops m a with _ | iss
    · simp [List.filterMap_cons_none h, h]
    · simp [List.filterMap_cons_some h, h, List.append_assoc,
        Nat.add_assoc, Nat.add_comm, Nat.add_left_comm]

/-- `checkDegenerateFaces` decomposed: issues appended, degenerate count
incremented, area statistics written only when the mesh has faces. -/
lemma checkDegenerateFaces_spec (ops : FloatOps F) (m : Mesh F)
    (st : AState F) :
    checkDegenerateFaces ops m st =
      { st with
        issues := st.issues ++ degIssuesOf ops m,
        metrics := { st.metrics with
          degenerateFaceCount := st.metrics.degenerateFaceCount +
            (degIssuesOf ops m).length,
          minFaceArea := if 0 < m.faces.length then (degAgg ops m).2.1
            else st.metrics.minFaceArea,
          maxFaceArea := if 0 < m.faces.length then (degAgg ops m).2.2
            else st.metrics.maxFaceArea,
          avgFaceArea := if 0 < m.faces.length then
              (degAgg ops m).1 / (m.faces.length : F)
            else st.metrics.avgFaceArea } } := by
  simp only [checkDegenerateFaces, degFold, degIssuesOf, degAgg]
  by_cases h : 0 < m.faces.length
  · simp [h]
  · simp [h]

lemma aspBody_eq (ops : FloatOps F) (m : Mesh F) (acc : AState F × F × F × F)
    (i : Nat) :
    aspBody ops m acc i =
      ({ acc.1 with
          issues := acc.1.issues ++ (aspOpt ops m i).toList },
        aspAggStep ops m acc.2 i) := by
  simp only [aspBody, aspOpt, aspAggStep]
  by_cases h3 : (m.faces.getD i dFace).vertexIndices.length < 3
  · simp only [if_pos h3]; simp
  · simp only [if_neg h3]
    by_cases h4 : faceAspect ops m i > 10
    · simp only [if_pos h4]; simp
    · simp only [if_neg h4]; simp

lemma aspFold (ops : FloatOps F) (m : Mesh F) (l : List Nat) :
    ∀ (st : AState F) (acc2 : F × F × F),
      l.foldl (aspBody ops m) (st, acc2) =
        ({ st with issues := st.issues ++ l.filterMap (aspOpt ops m) },
          l.foldl (aspAggStep ops m) acc2) := by
  induction l with
  | nil => intro st acc2; simp
  | cons a l ih =>
    intro st acc2
    rw [List.foldl_cons, List.foldl_cons, aspBody_eq, ih]
    rcases h : aspOpt ops m a with _ | iss
    · simp [List.filterMap_cons_none h, h]
    · simp [List.filterMap_cons_some h, h, List.append_assoc]

/-- `checkAspectRatio` decomposed. -/
lemma checkAspectRatio_spec (ops : FloatOps F) (m : Mesh F) (st : AState F) :
    checkAspectRatio ops m st =
      { st with
        issues := st.issues ++ aspIssuesOf ops m,
        metrics := { st.metrics with
          minAspectRatio := if 0 < m.faces.length then (aspAgg ops m).2.1
            else st.metrics.minAspectRatio,
          maxAspectRatio := if 0 < m.faces.length then (aspAgg ops m).2.2
            else st.metrics.maxAspectRatio,
          avgAspectRatio := if 0 < m.faces.length then
              (aspAgg ops m).1 / (m.faces.length : F)
            else st.metrics.avgAspectRatio } } := by
  simp only [checkAspectRatio, aspFold, aspIssuesOf, aspAgg]
  by_cases h : 0 < m.faces.length
  · simp [h]
  · simp [h]

lemma nmBody_eq (acc : AState F) (ef : (Nat × Nat) × List Nat) :
    nmBody acc ef =
      { acc with
        issues := acc.issues ++ (nmOpt (F := F) ef).toList,
        metrics := { acc.metrics with
          nonManifoldEdgeCount := acc.metrics.nonManifoldEdgeCount +
            (nmOpt (F := F) ef).toList.length } } := by
  simp only [nmBody, nmOpt]
  by_cases h : ef.2.length > 2
  · simp only [if_pos h]; simp
  · simp only [if_neg h]; simp

lemma nmFold (efm : List ((Nat × Nat) × List Nat)) :
    ∀ (st : AState F),
      efm.foldl nmBody st =
        { st with
          issues := st.issues ++ nmIssuesOf efm,
          metrics := { st.metrics with
            nonManifoldEdgeCount := st.metrics.nonManifoldEdgeCount +
              (nmIssuesOf (F := F) efm).length } } := by
  induction efm with
  | nil => intro st; simp [nmIssuesOf]
  | cons a l ih =>
    intro st
    rw [List.foldl_cons, nmBody_eq, ih]
    rcases h : nmOpt (F := F) a with _ | iss
    · simp [nmIssuesOf, List.filterMap_cons_none h, h]
    · simp [nmIssuesOf, List.filterMap_cons_some h, h, List.append_assoc,
        Nat.add_assoc, Nat.add_comm, Nat.add_left_comm]

/-- `checkNonManifoldEdges` decomposed. -/
lemma checkNonManifoldEdges_spec (st : AState F) :
    checkNonManifoldEdges st =
      { st with
        issues := st.issues ++ nmIssuesOf st.edgeFaceMap,
        metrics := { st.metrics with
          nonManifoldEdgeCount := st.metrics.nonManifoldEdgeCount +
            (nmIssuesOf (F := F) st.edgeFaceMap).length } } := by
  simp only [checkNonManifoldEdges, nmFold]

lemma valBody_eq (vc : List (List Nat)) (acc : AState F) (i : Nat) :
    valBody vc acc i = { acc with issues := acc.issues ++ valList vc i } := by
  simp only [valBody, valList]
  by_cases h1 : 0 < (vc.getD i []).length ∧ (vc.getD i []).length < 3
  · simp only [if_pos h1]
    by_cases h2 : (vc.getD i []).length > 12
    · simp only [if_pos h2]; simp
    · simp only [if_neg h2]; simp
  · simp only [if_neg h1]
    by_cases h2 : (vc.getD i []).length > 12
    · simp only [if_pos h2]; simp
    · simp only [if_neg h2]; simp

lemma valFold (vc : List (List Nat)) (l : List Nat) :
    ∀ (st : AState F),
      l.foldl (valBody vc) st =
        { st with issues := st.issues ++ l.flatMap (valList vc) } := by
  induction l with
  | nil => intro st; simp
  | cons a l ih =>
    intro st
    rw [List.foldl_cons, valBody_eq, ih]
    simp [List.append_assoc]

/-- `checkVertexValence` decomposed. -/
lemma checkVertexValence_spec (st : AState F) :
    checkVertexValence st =
      { st with
        issues := st.issues ++ valIssuesOf st.vertexConnectivity } := by
  simp only [checkVertexValence, valFold, valIssuesOf]

lemma ovBody_eq (ops : FloatOps F) (m : Mesh F) (acc : AState F)
    (p : Nat × Nat) :
    ovBody ops m acc p =
      { acc with issues := acc.issues ++ (ovOpt ops m p).toList } := by
  simp only [ovBody, ovOpt]
  by_cases h : vDistSq m p.1 p.2 < (1 / 10000) * (1 / 10000)
  · simp only [if_pos h]; simp
  · simp only [if_neg h]; simp

lemma ovFold (ops : FloatOps F) (m : Mesh F) (l : List (Nat × Nat)) :
    ∀ (st : AState F),
      l.foldl (ovBody ops m) st =
        { st with issues := st.issues ++ l.filterMap (ovOpt ops m) } := by
  induction l with
  | nil => intro st; simp
  | cons a l ih =>
    intro st
    rw [List.foldl_cons, ovBody_eq, ih]
    rcases h : ovOpt ops m a with _ | iss
    · simp [List.filterMap_cons_none h, h]
    · simp [List.filterMap_cons_some h, h, List.append_assoc]

/-- `checkOverlappingVertices` decomposed. -/
lemma checkOverlappingVertices_spec (ops : FloatOps F) (m : Mesh F)
    (st : AState F) :
    checkOverlappingVertices ops m st =
      { st with issues := st.issues ++ ovIssuesOf ops m } := by
  simp only [checkOverlappingVertices, ovFold, ovIssuesOf]

lemma nrmBody_eq (ops : FloatOps F) (m : Mesh F) (acc : AState F) (i : Nat) :
    nrmBody ops m acc i =
      { acc with issues := acc.issues ++ (nrmOpt ops m i).toList } := by
  simp only [nrmBody, nrmOpt]
  by_cases h3 : (m.faces.getD i dFace).vertexIndices.length < 3
  · simp only [if_pos h3]; simp
  · simp only [if_neg h3]
    split
    next hlen =>
      split
      next hvn =>
        split
        next hdot => simp
        next hdot => simp
      next hvn => simp
    next hlen => simp

lemma nrmFold (ops : FloatOps F) (m : Mesh F) (l : List Nat) :
    ∀ (st : AState F),
      l.foldl (nrmBody ops m) st =
        { st with issues := st.issues ++ l.filterMap (nrmOpt ops m) } := by
  induction l with
  | nil => intro st; simp
  | cons a l ih =>
    intro st
    rw [List.foldl_cons, nrmBody_eq, ih]
    rcases h : nrmOpt ops m a with _ | iss
    · simp [List.filterMap_cons_none h, h]
    · simp [List.filterMap_cons_some h, h, List.append_assoc]

/-- `checkNormalDirection` decomposed. -/
lemma checkNormalDirection_spec (ops : FloatOps F) (m : Mesh F)
    (st : AState F) :
    checkNormalDirection ops m st =
      { st with issues := st.issues ++ nrmIssuesOf ops m } := by
  simp only [checkNormalDirection, nrmFold, nrmIssuesOf]

lemma uvBody_eq (ops : FloatOps F) (m : Mesh F) (acc : AState F × F × Nat)
    (i : Nat) :
    uvBody ops m acc i =
      ({ acc.1 with issues := acc.1.issues ++ (uvOpt ops m i).toList },
        uvAggStep ops m acc.2 i) := by
  simp only [uvBody, uvOpt, uvAggStep]
  by_cases h0 : calculateUVStretch ops m i > 0
  · simp only [if_pos h0]
    by_cases h4 : calculateUVStretch ops m i > 4
    · simp only [if_pos h4]; simp
    · simp only [if_neg h4]; simp
  · simp only [if_neg h0]; simp

lemma uvFold (ops : FloatOps F) (m : Mesh F) (l : List Nat) :
    ∀ (st : AState F) (acc2 : F × Nat),
      l.foldl (uvBody ops m) (st, acc2) =
        ({ st with issues := st.issues ++ l.filterMap (uvOpt ops m) },
          l.foldl (uvAggStep ops m) acc2) := by
  induction l with
  | nil => intro st acc2; simp
  | cons a l ih =>
    intro st acc2
    rw [List.foldl_cons, List.foldl_cons, uvBody_eq, ih]
    rcases h : uvOpt ops m a with _ | iss
    · simp [List.filterMap_cons_none h, h]
    · simp [List.filterMap_cons_some h, h, List.append_assoc]

/-- `checkUVStretch` decomposed. -/
lemma checkUVStretch_spec (ops : FloatOps F) (m : Mesh F) (st : AState F) :
    checkUVStretch ops m st =
      { st with
        issues := st.issues ++ uvIssuesOf ops m,
        metrics := { st.metrics with
          uvStretchFactor := if 0 < (uvAgg ops m).2 then
              (uvAgg ops m).1 / ((uvAgg ops m).2 : F)
            else st.metrics.uvStretchFactor } } := by
  simp only [checkUVStretch, uvFold, uvIssuesOf, uvAgg]
  split
  next h => simp [h]
  next h => simp [h]

lemma sharpBody_eq (ops : FloatOps F) (m : Mesh F) (acc : AState F)
    (ef : (Nat × Nat) × List Nat) :
    sharpBody ops m acc ef =
      if ef.2.length == 2 then
        { acc with
          issues := acc.issues ++ (sharpOpt ops m ef).toList,
          metrics := { acc.metrics with
            minDihedralAngle :=
              minDStep acc.metrics.minDihedralAngle (edgeAngle ops m ef),
            maxDihedralAngle :=
              maxDStep acc.metrics.maxDihedralAngle (edgeAngle ops m ef) } }
      else acc := by
  simp only [sharpBody, sharpOpt, minDStep, maxDStep]
  by_cases h2 : ef.2.length == 2
  · simp only [if_pos h2]
    by_cases hmin : edgeAngle ops m ef < acc.metrics.minDihedralAngle ∨
        acc.metrics.minDihedralAngle < 1 / 10
    · simp only [if_pos hmin]
      by_cases hmax : edgeAngle ops m ef > acc.metrics.maxDihedralAngle
      · simp only [if_pos hmax]
        by_cases hsh : edgeAngle ops m ef < 30
        · simp only [if_pos hsh]; simp
        · simp only [if_neg hsh]; simp
      · simp only [if_neg hmax]
        by_cases hsh : edgeAngle ops m ef < 30
        · simp only [if_pos hsh]; simp
        · simp only [if_neg hsh]; simp
    · simp only [if_neg hmin]
      by_cases hmax : edgeAngle ops m ef > acc.metrics.maxDihedralAngle
      · simp only [if_pos hmax]
        by_cases hsh : edgeAngle ops m ef < 30
        · simp only [if_pos hsh]; simp
        · simp only [if_neg hsh]; simp
      · simp only [if_neg hmax]
        by_cases hsh : edgeAngle ops m ef < 30
        · simp only [if_pos hsh]; simp
        · simp only [if_neg hsh]; simp
  · simp [h2]

lemma sharpFold (ops : FloatOps F) (m : Mesh F)
    (efm : List ((Nat × Nat) × List Nat)) :
    ∀ (st : AState F),
      efm.foldl (sharpBody ops m) st =
        { st with
          issues := st.issues ++ sharpIssuesOf ops m efm,
          metrics := { st.metrics with
            minDihedralAngle :=
              minDFold st.metrics.minDihedralAngle (anglesOf ops m efm),
            maxDihedralAngle :=
              maxDFold st.metrics.maxDihedralAngle (anglesOf ops m efm) } } := by
  induction efm with
  | nil => intro st; simp [sharpIssuesOf, anglesOf, minDFold, maxDFold]
  | cons a l ih =>
    intro st
    rw [List.foldl_cons, sharpBody_eq]
    by_cases h2 : a.2.length == 2
    · simp only [if_pos h2]
      rw [ih]
      have hAng : anglesOf ops m (a :: l) =
          edgeAngle ops m a :: anglesOf ops m l := by
        unfold anglesOf
        exact List.filterMap_cons_some (by simp [h2])
      rw [hAng]
      rcases h : sharpOpt ops m a with _ | iss
      · simp [sharpIssuesOf, List.filterMap_cons_none h, h, minDFold, maxDFold]
      · simp [sharpIssuesOf, List.filterMap_cons_some h, h, minDFold,
          maxDFold, List.append_assoc]
    · simp only [if_neg h2]
      rw [ih]
      have hAng : anglesOf ops m (a :: l) = anglesOf ops m l := by
        simp only [anglesOf]
        rw [List.filterMap_cons_none]
        simp [h2]
      have hOpt : sharpOpt ops m a = (none : Option (MeshIssue F)) := by
        simp [sharpOpt, h2]
      rw [hAng]
      simp [sharpIssuesOf, List.filterMap_cons_none hOpt]

/-- `checkSharpAngles` decomposed. -/
lemma checkSharpAngles_spec (ops : FloatOps F) (m : Mesh F) (st : AState F) :
    checkSharpAngles ops m st =
      { st with
        issues := st.issues ++ sharpIssuesOf ops m st.edgeFaceMap,
        metrics := { st.metrics with
          minDihedralAngle := minDFold st.metrics.minDihedralAngle
            (anglesOf ops m st.edgeFaceMap),
          maxDihedralAngle := maxDFold st.metrics.maxDihedralAngle
            (anglesOf ops m st.edgeFaceMap) } } := by
  simp only [checkSharpAngles, sharpFold]

/-- Full decomposition of one `analyzeQuality` run: the issue list is rebuilt
from scratch (mesh-determined), the area/aspect/UV statistics are
mesh-determined conditional overwrites, the two counters accumulate on top
of the incoming state, and the dihedral extrema fold the incoming values
through the observed angles. -/
lemma analyzeQuality_spec (ops : FloatOps F) (m : Mesh F) (st : AState F) :
    analyzeQuality ops m st =
      { issues := allIssuesOf ops m,
        metrics := { st.metrics with
          minFaceArea := if 0 < m.faces.length then (degAgg ops m).2.1
            else st.metrics.minFaceArea,
          maxFaceArea := if 0 < m.faces.length then (degAgg ops m).2.2
            else st.metrics.maxFaceArea,
          avgFaceArea := if 0 < m.faces.length then
              (degAgg ops m).1 / (m.faces.length : F)
            else st.metrics.avgFaceArea,
          minAspectRatio := if 0 < m.faces.length then (aspAgg ops m).2.1
            else st.metrics.minAspectRatio,
          maxAspectRatio := if 0 < m.faces.length then (aspAgg ops m).2.2
            else st.metrics.maxAspectRatio,
          avgAspectRatio := if 0 < m.faces.length then
              (aspAgg ops m).1 / (m.faces.length : F)
            else st.metrics.avgAspectRatio,
          minDihedralAngle := minDFold st.metrics.minDihedralAngle
            (anglesOf ops m (buildTopology m).1),
          maxDihedralAngle := maxDFold st.metrics.maxDihedralAngle
            (anglesOf ops m (buildTopology m).1),
          nonManifoldEdgeCount := st.metrics.nonManifoldEdgeCount +
            (nmIssuesOf (F := F) (buildTopology m).1).length,
          degenerateFaceCount := st.metrics.degenerateFaceCount +
            (degIssuesOf ops m).length,
          uvStretchFactor := if 0 < (uvAgg ops m).2 then
              (uvAgg ops m).1 / ((uvAgg ops m).2 : F)
            else st.metrics.uvStretchFactor },
        edgeFaceMap := (buildTopology m).1,
        vertexConnectivity := (buildTopology m).2 } := by
  simp only [analyzeQuality]
  rw [checkDegenerateFaces_spec, checkAspectRatio_spec,
    checkNonManifoldEdges_spec, checkVertexValence_spec,
    checkOverlappingVertices_spec, checkNormalDirection_spec,
    checkUVStretch_spec, checkSharpAngles_spec]
  simp [allIssuesOf, List.append_assoc]

lemma maxDStep_eq_max (m0 a : F) : maxDStep m0 a = max m0 a := by
  unfold maxDStep
  rcases lt_or_le m0 a with h | h
  · rw [if_pos h, max_eq_right h.le]
  · rw [if_neg (not_lt.mpr h), max_eq_left h]

lemma le_maxDFold (m0 : F) (as : List F) : m0 ≤ maxDFold m0 as := by
  induction as generalizing m0 with
  | nil => exact le_rfl
  | cons a as ih =>
    calc m0 ≤ max m0 a := le_max_left _ _
    _ ≤ maxDFold (max m0 a) as := ih _
    _ = maxDFold (maxDStep m0 a) as := by rw [maxDStep_eq_max]
    _ = maxDFold m0 (a :: as) := rfl

lemma mem_le_maxDFold (m0 : F) (as : List F) :
    ∀ a ∈ as, a ≤ maxDFold m0 as := by
  induction as generalizing m0 with
  | nil => intro a ha; cases ha
  | cons b as ih =>
    intro a ha
    rcases List.mem_cons.mp ha with h | h
    · subst h
      calc a ≤ max m0 a := le_max_right _ _
      _ ≤ maxDFold (max m0 a) as := le_maxDFold _ _
      _ = maxDFold m0 (a :: as) := by rw [← maxDStep_eq_max]; rfl
    · have := ih (maxDStep m0 b) a h
      exact this

lemma maxDFold_of_all_le (m0 : F) (as : List F)
    (h : ∀ a ∈ as, a ≤ m0) : maxDFold m0 as = m0 := by
  induction as with
  | nil => rfl
  | cons a as ih =>
    have h1 : maxDStep m0 a = m0 := by
      rw [maxDStep_eq_max, max_eq_left (h a (List.mem_cons_self a as))]
    show maxDFold (maxDStep m0 a) as = m0
    rw [h1]
    exact ih (fun b hb => h b (List.mem_cons_of_mem a hb))

/-- Re-folding the max-dihedral rule over the same angles is a no-op. -/
lemma maxDFold_stable (m0 : F) (as : List F) :
    maxDFold (maxDFold m0 as) as = maxDFold m0 as :=
  maxDFold_of_all_le _ _ (mem_le_maxDFold m0 as)

lemma minDFold_mem_or_start (as : List F) (s : F) :
    minDFold s as = s ∨ minDFold s as ∈ as := by
  induction as generalizing s with
  | nil => exact Or.inl rfl
  | cons a as ih =>
    show minDFold (minDStep s a) as = s ∨
      minDFold (minDStep s a) as ∈ a :: as
    rcases ih (minDStep s a) with h | h
    · rw [h]
      unfold minDStep
      split
      · exact Or.inr (List.mem_cons_self a as)
      · exact Or.inl rfl
    · exact Or.inr (List.mem_cons_of_mem a h)

lemma minDFold_compare (as : List F) :
    ∀ s t : F, 1 / 10 ≤ t → t < s →
      minDFold t as = minDFold s as ∨
        (minDFold t as = t ∧ t < minDFold s as) := by
  induction as with
  | nil => intro s t _ hts; exact Or.inr ⟨rfl, hts⟩
  | cons a as ih =>
    intro s t hct hts
    have hcs : 1 / 10 ≤ s := le_of_lt (lt_of_le_of_lt hct hts)
    have hstep_t : minDStep t a = if a < t then a else t := by
      unfold minDStep
      by_cases h : a < t
      · rw [if_pos (Or.inl h), if_pos h]
      · rw [if_neg, if_neg h]
        push_neg
        exact ⟨not_lt.mp h, hct⟩
    have hstep_s : minDStep s a = if a < s then a else s := by
      unfold minDStep
      by_cases h : a < s
      · rw [if_pos (Or.inl h), if_pos h]
      · rw [if_neg, if_neg h]
        push_neg
        exact ⟨not_lt.mp h, hcs⟩
    show minDFold (minDStep t a) as = minDFold (minDStep s a) as ∨
      (minDFold (minDStep t a) as = t ∧ t < minDFold (minDStep s a) as)
    by_cases h1 : a < t
    · have h2 : a < s := lt_trans h1 hts
      rw [hstep_t, if_pos h1, hstep_s, if_pos h2]
      exact Or.inl rfl
    · by_cases h2 : a < s
      · rcases eq_or_lt_of_le (not_lt.mp h1) with he | hlt
        · rw [hstep_t, if_neg h1, hstep_s, if_pos h2, ← he]
          exact Or.inl rfl
        · rw [hstep_t, if_neg h1, hstep_s, if_pos h2]
          exact ih a t hct hlt
      · rw [hstep_t, if_neg h1, hstep_s, if_neg h2]
        exact ih s t hct hts

/-- Re-folding the quirky min-dihedral rule over the same angles, starting
from the previous run's result, is a no-op (all angles below the sentinel). -/
lemma minDFold_stable (as : List F) (hb : ∀ a ∈ as, a < fltMax) :
    minDFold (minDFold fltMax as) as = minDFold (fltMax : F) as := by
  rcases minDFold_mem_or_start as fltMax with h | h
  · rw [h]; exact h
  · have hm1lt : minDFold (fltMax : F) as < fltMax := hb _ h
    by_cases hc : 1 / 10 ≤ minDFold (fltMax : F) as
    · rcases minDFold_compare as fltMax (minDFold fltMax as) hc hm1lt with
        h2 | h2
      · rw [h2]
      · exact h2.1
    · cases as with
      | nil => cases h
      | cons a as' =>
        have e1 : minDStep (minDFold fltMax (a :: as')) a = a :=
          if_pos (Or.inr (not_le.mp hc))
        have e2 : minDStep (fltMax : F) a = a :=
          if_pos (Or.inl (hb a (List.mem_cons_self a as')))
        show minDFold (minDStep (minDFold fltMax (a :: as')) a) as' = _
        rw [e1]
        conv_rhs => rw [show minDFold (fltMax : F) (a :: as') =
          minDFold (minDStep fltMax a) as' from rfl, e2]

lemma piL_pos : (0 : F) < piL := by norm_num [piL]

lemma acos_angle_nonneg (ops : FloatOps F)
    (hacos : ∀ x, 0 ≤ ops.acos x ∧ ops.acos x ≤ 4) (x : F) :
    0 ≤ ops.acos x * 180 / piL :=
  div_nonneg (mul_nonneg (hacos x).1 (by norm_num)) (le_of_lt piL_pos)

lemma acos_angle_lt_fltMax (ops : FloatOps F)
    (hacos : ∀ x, 0 ≤ ops.acos x ∧ ops.acos x ≤ 4) (x : F) :
    ops.acos x * 180 / piL < fltMax := by
  have hp : (0 : F) < piL := piL_pos
  have h2 : ops.acos x * 180 / piL ≤ 4 * 180 / piL := by
    gcongr
    exact (hacos x).2
  have h3 : (4 : F) * 180 / piL < fltMax := by
    rw [div_lt_iff₀ hp]
    norm_num [piL, fltMax]
  exact lt_of_le_of_lt h2 h3

lemma edgeAngle_nonneg (ops : FloatOps F)
    (hacos : ∀ x, 0 ≤ ops.acos x ∧ ops.acos x ≤ 4) (m : Mesh F)
    (ef : (Nat × Nat) × List Nat) : 0 ≤ edgeAngle ops m ef :=
  acos_angle_nonneg ops hacos _

lemma edgeAngle_lt_fltMax (ops : FloatOps F)
    (hacos : ∀ x, 0 ≤ ops.acos x ∧ ops.acos x ≤ 4) (m : Mesh F)
    (ef : (Nat × Nat) × List Nat) : edgeAngle ops m ef < fltMax :=
  acos_angle_lt_fltMax ops hacos _

lemma anglesOf_lt_fltMax (ops : FloatOps F)
    (hacos : ∀ x, 0 ≤ ops.acos x ∧ ops.acos x ≤ 4) (m : Mesh F)
    (efm : List ((Nat × Nat) × List Nat)) :
    ∀ a ∈ anglesOf ops m efm, a < fltMax := by
  intro a ha
  rcases List.mem_filterMap.mp ha with ⟨ef, _, hef⟩
  by_cases h2 : ef.2.length == 2
  · rw [if_pos h2] at hef
    cases hef
    exact edgeAngle_lt_fltMax ops hacos m ef
  · rw [if_neg h2] at hef
    cases hef

end PassLemmas

section ClaimC1

variable {F : Type} [LinearOrderedField F]

/-- C1 (counterexample): the claim that every metrics field is overwritten
with no accumulation across runs is false.  On the one-collapsed-face
fixture, the second `analyzeQuality` run reports `degenerateFaceCount = 2`
while the first reports `1`: the counters are never reset by
`analyzeQuality`. -/
theorem c1_counterexample :
    (analyzeQuality stubOps degMesh
        (analyzeQuality stubOps degMesh initState)).metrics.degenerateFaceCount
      = 2 ∧
    (analyzeQuality stubOps degMesh
        initState).metrics.degenerateFaceCount = 1 ∧
    (analyzeQuality stubOps degMesh
        (analyzeQuality stubOps degMesh initState)).metrics.degenerateFaceCount
      ≠ (analyzeQuality stubOps degMesh
        initState).metrics.degenerateFaceCount := by
  have hlen : (degIssuesOf stubOps degMesh).length = 1 := by
    have harea : faceArea stubOps degMesh 0 = 0 := by
      simp [faceArea, calculateTriangleArea, degMesh, cV, stubOps, vtx, dV]
    have h0 : degOpt stubOps degMesh 0 =
        some ⟨IssueType.degenerateFace, 0, 1, [0, 0, 0]⟩ := by
      simp only [degOpt, harea]
      norm_num [degMesh, dFace]
    have h1 : degIssuesOf stubOps degMesh =
        [⟨IssueType.degenerateFace, 0, 1, [0, 0, 0]⟩] := by
      unfold degIssuesOf
      rw [show degMesh.faces.length = 1 from rfl,
        show List.range 1 = [0] from rfl, List.filterMap_cons_some h0]
      rfl
    rw [h1]
    rfl
  rw [analyzeQuality_spec, analyzeQuality_spec]
  simp [initState, initMetrics, hlen]

/-- C1 (amended): two runs of `analyzeQuality` on an unmodified mesh yield
bit-identical issue lists, and identical metrics in every field except the
two counters, which are incremented again rather than overwritten
(`degenerateFaceCount` and `nonManifoldEdgeCount` double). -/
theorem c1_amended (ops : FloatOps F) (m : Mesh F)
    (hacos : ∀ x, 0 ≤ ops.acos x ∧ ops.acos x ≤ 4) :
    (analyzeQuality ops m (analyzeQuality ops m initState)).issues =
      (analyzeQuality ops m initState).issues ∧
    (analyzeQuality ops m (analyzeQuality ops m initState)).metrics =
      { (analyzeQuality ops m initState).metrics with
        degenerateFaceCount :=
          2 * (analyzeQuality ops m initState).metrics.degenerateFaceCount,
        nonManifoldEdgeCount :=
          2 * (analyzeQuality ops m
            initState).metrics.nonManifoldEdgeCount } := by
  rw [analyzeQuality_spec, analyzeQuality_spec]
  refine ⟨rfl, ?_⟩
  simp only [MeshQualityMetrics.mk.injEq]
  refine ⟨?_, ?_, ?_, ?_, ?_, ?_, ?_, ?_, ?_, ?_, ?_⟩
  · by_cases hn : 0 < m.faces.length <;> simp [hn]
  · by_cases hn : 0 < m.faces.length <;> simp [hn]
  · by_cases hn : 0 < m.faces.length <;> simp [hn]
  · by_cases hn : 0 < m.faces.length <;> simp [hn]
  · by_cases hn : 0 < m.faces.length <;> simp [hn]
  · by_cases hn : 0 < m.faces.length <;> simp [hn]
  · show minDFold (minDFold initMetrics.minDihedralAngle _) _ = _
    rw [show (initMetrics : MeshQualityMetrics F).minDihedralAngle = fltMax
      from rfl]
    exact minDFold_stable _ (anglesOf_lt_fltMax ops hacos m _)
  · show maxDFold (maxDFold initMetrics.maxDihedralAngle _) _ = _
    exact maxDFold_stable _ _
  · simp [initState, initMetrics]
    omega
  · simp [initState, initMetrics]
    omega
  · by_cases hu : 0 < (uvAgg ops m).2 <;> simp [hu]

/-- C1 (witness): the amended theorem applied to the collapsed-face fixture;
its `acos` hypothesis holds for the stub operations. -/
theorem c1_witness :
    (∀ x : ℚ, 0 ≤ stubOps.acos x ∧ stubOps.acos x ≤ 4) ∧
    ((analyzeQuality stubOps degMesh
        (analyzeQuality stubOps degMesh initState)).issues =
      (analyzeQuality stubOps degMesh initState).issues ∧
    (analyzeQuality stubOps degMesh
        (analyzeQuality stubOps degMesh initState)).metrics =
      { (analyzeQuality stubOps degMesh initState).metrics with
        degenerateFaceCount :=
          2 * (analyzeQuality stubOps degMesh
            initState).metrics.degenerateFaceCount,
        nonManifoldEdgeCount :=
          2 * (analyzeQuality stubOps degMesh
            initState).metrics.nonManifoldEdgeCount }) :=
  ⟨fun _ => ⟨le_refl 0, by norm_num [stubOps]⟩,
    c1_amended stubOps degMesh
      (fun _ => ⟨le_refl 0, by norm_num [stubOps]⟩)⟩

end ClaimC1

section ClaimC2

variable {F : Type} [LinearOrderedField F]

lemma getD_replicate_nil (n i : Nat) :
    (List.replicate n ([] : List Nat)).getD i [] = [] := by
  induction n generalizing i with
  | zero => cases i <;> rfl
  | succ n ih =>
    cases i with
    | zero => rfl
    | succ i => exact ih i

lemma valList_replicate (n i : Nat) :
    valList (F := F) (List.replicate n []) i = [] := by
  simp [valList, getD_replicate_nil]

lemma valIssuesOf_replicate (n : Nat) :
    valIssuesOf (F := F) (List.replicate n []) = [] := by
  unfold valIssuesOf
  rw [List.flatMap_eq_nil_iff]
  intro x _
  exact valList_replicate _ _

lemma buildTopology_no_faces (m : Mesh F) (hm : m.faces = []) :
    buildTopology m = ([], List.replicate m.vertices.length []) := by
  unfold buildTopology
  rw [hm]
  rfl

lemma ovIssuesOf_types (ops : FloatOps F) (m : Mesh F) :
    ∀ iss ∈ ovIssuesOf ops m, iss.type = IssueType.overlappingVertices := by
  intro iss hiss
  rcases List.mem_filterMap.mp hiss with ⟨p, _, hp⟩
  unfold ovOpt at hp
  by_cases h : vDistSq m p.1 p.2 < (1 / 10000) * (1 / 10000)
  · rw [if_pos h] at hp
    cases hp
    rfl
  · rw [if_neg h] at hp
    cases hp

/-- C2 (counterexample): a mesh with zero faces but two coincident vertices
has a nonempty issue list after `analyzeQuality` (one Overlapping Vertices
issue), so "the issue list is empty regardless of how many vertices the
mesh has" is false. -/
theorem c2_counterexample :
    ovMesh.faces = [] ∧
    (analyzeQuality stubOps ovMesh initState).issues =
      [⟨IssueType.overlappingVertices, 0, 1, [1]⟩] ∧
    (analyzeQuality stubOps ovMesh initState).issues ≠ [] := by
  have hd : vDistSq ovMesh 0 1 = 0 := by
    simp [vDistSq, ovMesh, cV, vtx]
  have h0 : ovOpt stubOps ovMesh (0, 1) =
      some ⟨IssueType.overlappingVertices, 0, 1, [1]⟩ := by
    simp only [ovOpt, hd]
    norm_num [stubOps]
  have hov : ovIssuesOf stubOps ovMesh =
      [⟨IssueType.overlappingVertices, 0, 1, [1]⟩] := by
    unfold ovIssuesOf
    rw [show allPairs ovMesh.vertices.length = [(0, 1)] from rfl,
      List.filterMap_cons_some h0]
    rfl
  refine ⟨rfl, ?_, ?_⟩
  · rw [analyzeQuality_spec]
    show allIssuesOf stubOps ovMesh = _
    unfold allIssuesOf
    rw [hov, buildTopology_no_faces ovMesh rfl]
    rfl
  · rw [analyzeQuality_spec]
    show allIssuesOf stubOps ovMesh ≠ []
    unfold allIssuesOf
    rw [hov, buildTopology_no_faces ovMesh rfl]
    intro h
    simp at h

/-- C2 (amended): for a mesh with zero faces, one `analyzeQuality` run
leaves every metrics field at its constructor sentinel, and the issue list
consists exactly of the Overlapping Vertices issues (so it is empty iff no
vertex pair is closer than the overlap threshold); every issue in it has
type Overlapping Vertices. -/
theorem c2_amended (ops : FloatOps F) (m : Mesh F) (hm : m.faces = []) :
    (analyzeQuality ops m initState).metrics = initMetrics ∧
    (analyzeQuality ops m initState).issues = ovIssuesOf ops m ∧
    ∀ iss ∈ (analyzeQuality ops m initState).issues,
      iss.type = IssueType.overlappingVertices := by
  have hn : m.faces.length = 0 := by rw [hm]; rfl
  have htopo := buildTopology_no_faces m hm
  have hIss : allIssuesOf ops m = ovIssuesOf ops m := by
    unfold allIssuesOf
    rw [htopo]
    unfold degIssuesOf aspIssuesOf nrmIssuesOf uvIssuesOf
    rw [hn]
    rw [show nmIssuesOf (F := F) ([] : List ((Nat × Nat) × List Nat)) = []
      from rfl]
    rw [valIssuesOf_replicate]
    simp [sharpIssuesOf]
  rw [analyzeQuality_spec]
  refine ⟨?_, hIss, ?_⟩
  · rw [htopo]
    have huv : (uvAgg ops m).2 = 0 := by
      unfold uvAgg
      rw [hn]
      rfl
    simp [hn, huv, anglesOf, minDFold, maxDFold, initState, degIssuesOf,
      nmIssuesOf, initMetrics]
  · rw [hIss]
    exact ovIssuesOf_types ops m

/-- C2 (witness): the amended theorem applied to the zero-face
two-coincident-vertex fixture. -/
theorem c2_witness :
    ovMesh.faces = [] ∧
    ((analyzeQuality stubOps ovMesh initState).metrics = initMetrics ∧
    (analyzeQuality stubOps ovMesh initState).issues =
      ovIssuesOf stubOps ovMesh ∧
    ∀ iss ∈ (analyzeQuality stubOps ovMesh initState).issues,
      iss.type = IssueType.overlappingVertices) :=
  ⟨rfl, c2_amended stubOps ovMesh rfl⟩

end ClaimC2

section ClaimC3

variable {F : Type} [LinearOrderedField F]

/-- C3: processing one manifold edge in the sharp-angle pass replaces the
stored minimum dihedral angle by the newly computed angle exactly when the
new angle is smaller than the stored minimum or the stored minimum is below
0.1; consequently the first observed angle always replaces the `fltMax`
sentinel, and a stored minimum in (0, 0.1) is overwritten even by a larger
subsequent angle. -/
theorem c3_min_dihedral_update (ops : FloatOps F) (m : Mesh F) (st : AState F)
    (e1 e2 f1 f2 : Nat)
    (hacos : ∀ x, 0 ≤ ops.acos x ∧ ops.acos x ≤ 4) :
    (checkSharpAngles ops m
        { st with edgeFaceMap := [((e1, e2), [f1, f2])] }).metrics.minDihedralAngle
      = (if calculateDihedralAngle ops m f1 f2 e1 e2 <
            st.metrics.minDihedralAngle ∨
            st.metrics.minDihedralAngle < 1 / 10 then
          calculateDihedralAngle ops m f1 f2 e1 e2
        else st.metrics.minDihedralAngle) ∧
    (st.metrics.minDihedralAngle = fltMax →
      (checkSharpAngles ops m
        { st with
          edgeFaceMap := [((e1, e2), [f1, f2])] }).metrics.minDihedralAngle
        = calculateDihedralAngle ops m f1 f2 e1 e2) ∧
    (0 < st.metrics.minDihedralAngle → st.metrics.minDihedralAngle < 1 / 10 →
      (checkSharpAngles ops m
        { st with
          edgeFaceMap := [((e1, e2), [f1, f2])] }).metrics.minDihedralAngle
        = calculateDihedralAngle ops m f1 f2 e1 e2) := by
  have hangle : edgeAngle ops m ((e1, e2), [f1, f2]) =
      calculateDihedralAngle ops m f1 f2 e1 e2 := rfl
  have hmain : (checkSharpAngles ops m
      { st with
        edgeFaceMap := [((e1, e2), [f1, f2])] }).metrics.minDihedralAngle =
      minDStep st.metrics.minDihedralAngle
        (calculateDihedralAngle ops m f1 f2 e1 e2) := by
    rw [checkSharpAngles_spec]
    show minDFold st.metrics.minDihedralAngle
      (anglesOf ops m [((e1, e2), [f1, f2])]) = _
    rw [show anglesOf ops m [((e1, e2), [f1, f2])] =
      [calculateDihedralAngle ops m f1 f2 e1 e2] from rfl]
    rfl
  refine ⟨by rw [hmain]; rfl, ?_, ?_⟩
  · intro hsent
    have hlt : calculateDihedralAngle ops m f1 f2 e1 e2 < fltMax :=
      hangle ▸ edgeAngle_lt_fltMax ops hacos m ((e1, e2), [f1, f2])
    rw [hmain, hsent]
    unfold minDStep
    rw [if_pos (Or.inl hlt)]
  · intro _ hsmall
    rw [hmain]
    unfold minDStep
    rw [if_pos (Or.inr hsmall)]

/-- C3 (witness): the update rule applied to a concrete state and edge. -/
theorem c3_witness :
    (∀ x : ℚ, 0 ≤ stubOps.acos x ∧ stubOps.acos x ≤ 4) ∧
    ((checkSharpAngles stubOps edgeMesh
        { (initState : AState ℚ) with
          edgeFaceMap := [((0, 1), [0, 0])] }).metrics.minDihedralAngle
      = (if calculateDihedralAngle stubOps edgeMesh 0 0 0 1 <
            (initState : AState ℚ).metrics.minDihedralAngle ∨
            (initState : AState ℚ).metrics.minDihedralAngle < 1 / 10 then
          calculateDihedralAngle stubOps edgeMesh 0 0 0 1
        else (initState : AState ℚ).metrics.minDihedralAngle) ∧
    ((initState : AState ℚ).metrics.minDihedralAngle = fltMax →
      (checkSharpAngles stubOps edgeMesh
        { (initState : AState ℚ) with
          edgeFaceMap := [((0, 1), [0, 0])] }).metrics.minDihedralAngle
        = calculateDihedralAngle stubOps edgeMesh 0 0 0 1) ∧
    (0 < (initState : AState ℚ).metrics.minDihedralAngle →
      (initState : AState ℚ).metrics.minDihedralAngle < 1 / 10 →
      (checkSharpAngles stubOps edgeMesh
        { (initState : AState ℚ) with
          edgeFaceMap := [((0, 1), [0, 0])] }).metrics.minDihedralAngle
        = calculateDihedralAngle stubOps edgeMesh 0 0 0 1)) :=
  ⟨fun _ => ⟨le_refl 0, by norm_num [stubOps]⟩,
    c3_min_dihedral_update stubOps edgeMesh initState 0 1 0 0
      (fun _ => ⟨le_refl 0, by norm_num [stubOps]⟩)⟩

end ClaimC3

section IssueTypeLemmas

variable {F : Type} [LinearOrderedField F]

lemma degIssuesOf_types (ops : FloatOps F) (m : Mesh F) :
    ∀ iss ∈ degIssuesOf ops m, iss.type = IssueType.degenerateFace := by
  intro iss hiss
  rcases List.mem_filterMap.mp hiss with ⟨i, _, hi⟩
  simp only [degOpt] at hi
  split_ifs at hi
  all_goals cases hi
  all_goals rfl

lemma aspIssuesOf_types (ops : FloatOps F) (m : Mesh F) :
    ∀ iss ∈ aspIssuesOf ops m, iss.type = IssueType.highAspectRatio := by
  intro iss hiss
  rcases List.mem_filterMap.mp hiss with ⟨i, _, hi⟩
  simp only [aspOpt] at hi
  split_ifs at hi
  all_goals cases hi
  all_goals rfl

lemma nmIssuesOf_types (efm : List ((Nat × Nat) × List Nat)) :
    ∀ iss ∈ nmIssuesOf (F := F) efm,
      iss.type = IssueType.nonManifoldEdge := by
  intro iss hiss
  rcases List.mem_filterMap.mp hiss with ⟨ef, _, hef⟩
  unfold nmOpt at hef
  repeat split at hef
  all_goals cases hef
  all_goals rfl

lemma valIssuesOf_types (vc : List (List Nat)) :
    ∀ iss ∈ valIssuesOf (F := F) vc,
      iss.type = IssueType.lowValenceVertex ∨
        iss.type = IssueType.highValenceVertex := by
  intro iss hiss
  rcases List.mem_flatMap.mp hiss with ⟨i, _, hi⟩
  unfold valList at hi
  rcases List.mem_append.mp hi with h | h
  · left
    split at h
    · rcases List.mem_singleton.mp h with rfl
      rfl
    · cases h
  · right
    split at h
    · rcases List.mem_singleton.mp h with rfl
      rfl
    · cases h

lemma nrmIssuesOf_types (ops : FloatOps F) (m : Mesh F) :
    ∀ iss ∈ nrmIssuesOf ops m, iss.type = IssueType.invertedNormal := by
  intro iss hiss
  rcases List.mem_filterMap.mp hiss with ⟨i, _, hi⟩
  simp only [nrmOpt] at hi
  split_ifs at hi
  all_goals cases hi
  all_goals rfl

lemma uvIssuesOf_types (ops : FloatOps F) (m : Mesh F) :
    ∀ iss ∈ uvIssuesOf ops m, iss.type = IssueType.textureStretch := by
  intro iss hiss
  rcases List.mem_filterMap.mp hiss with ⟨i, _, hi⟩
  simp only [uvOpt] at hi
  split_ifs at hi
  all_goals cases hi
  all_goals rfl

lemma sharpIssuesOf_types (ops : FloatOps F) (m : Mesh F)
    (efm : List ((Nat × Nat) × List Nat)) :
    ∀ iss ∈ sharpIssuesOf ops m efm, iss.type = IssueType.sharpAngle := by
  intro iss hiss
  rcases List.mem_filterMap.mp hiss with ⟨ef, _, hef⟩
  unfold sharpOpt at hef
  repeat split at hef
  all_goals cases hef
  all_goals rfl

end IssueTypeLemmas

section ClaimC4

variable {F : Type} [LinearOrderedField F]

lemma mem_allPairs (n : Nat) (p : Nat × Nat) :
    p ∈ allPairs n ↔ p.1 < p.2 ∧ p.2 < n := by
  unfold allPairs
  rw [List.mem_flatMap]
  constructor
  · rintro ⟨i, hi, hp⟩
    rcases List.mem_map.mp hp with ⟨j, hj, rfl⟩
    rw [List.mem_range'_1] at hj
    rw [List.mem_range] at hi
    exact ⟨by omega, by omega⟩
  · rintro ⟨h1, h2⟩
    refine ⟨p.1, List.mem_range.mpr (by omega), ?_⟩
    refine List.mem_map.mpr ⟨p.2, ?_, rfl⟩
    rw [List.mem_range'_1]
    omega

lemma nodup_allPairs (n : Nat) : (allPairs n).Nodup := by
  unfold allPairs
  rw [List.nodup_flatMap]
  constructor
  · intro i _
    refine List.Nodup.map ?_ (List.nodup_range' _ _)
    intro a b h
    exact (Prod.ext_iff.mp h).2
  · refine (List.pairwise_lt_range n).imp ?_
    intro a b hab x hxa hxb
    rcases List.mem_map.mp hxa with ⟨j1, _, rfl⟩
    rcases List.mem_map.mp hxb with ⟨j2, _, hx⟩
    have : b = a := congrArg Prod.fst hx
    omega

lemma filterMap_single {α β : Type _} (l : List α)
    (f : α → Option β) (x : α) (v : β) (hnd : l.Nodup) (hmem : x ∈ l)
    (hnone : ∀ y ∈ l, y ≠ x → f y = none) (hx : f x = some v) :
    l.filterMap f = [v] := by
  induction l with
  | nil => cases hmem
  | cons a l ih =>
    rcases List.mem_cons.mp hmem with rfl | hxl
    · rw [List.filterMap_cons_some hx]
      have hnil : l.filterMap f = [] := by
        rw [List.filterMap_eq_nil_iff]
        intro y hy
        have hyx : y ≠ x := by
          intro he
          subst he
          exact (List.nodup_cons.mp hnd).1 hy
        exact hnone y (List.mem_cons_of_mem _ hy) hyx
      rw [hnil]
    · have hax : a ≠ x := by
        intro he
        subst he
        exact (List.nodup_cons.mp hnd).1 hxl
      rw [List.filterMap_cons_none (hnone a (List.mem_cons_self a l) hax)]
      exact ih (List.nodup_cons.mp hnd).2 hxl
        (fun y hy hyx => hnone y (List.mem_cons_of_mem _ hy) hyx)

/-- Filtering the full run's issues down to Overlapping Vertices gives
exactly the overlap pass's output. -/
lemma filter_overlapping (ops : FloatOps F) (m : Mesh F) :
    (allIssuesOf ops m).filter
        (fun iss => iss.type == IssueType.overlappingVertices) =
      ovIssuesOf ops m := by
  unfold allIssuesOf
  rw [List.filter_append, List.filter_append, List.filter_append,
    List.filter_append, List.filter_append, List.filter_append,
    List.filter_append]
  rw [List.filter_eq_nil_iff.mpr (fun a ha hpe => by
    rw [beq_iff_eq] at hpe
    rw [degIssuesOf_types ops m a ha] at hpe
    cases hpe)]
  rw [List.filter_eq_nil_iff.mpr (fun a ha hpe => by
    rw [beq_iff_eq] at hpe
    rw [aspIssuesOf_types ops m a ha] at hpe
    cases hpe)]
  rw [List.filter_eq_nil_iff.mpr (fun a ha hpe => by
    rw [beq_iff_eq] at hpe
    rw [nmIssuesOf_types _ a ha] at hpe
    cases hpe)]
  rw [List.filter_eq_nil_iff.mpr (fun a ha hpe => by
    rw [beq_iff_eq] at hpe
    rcases valIssuesOf_types _ a ha with h | h <;> rw [h] at hpe <;>
      cases hpe)]
  rw [List.filter_eq_self.mpr (fun a ha => by
    rw [beq_iff_eq]
    exact ovIssuesOf_types ops m a ha)]
  rw [List.filter_eq_nil_iff.mpr (fun a ha hpe => by
    rw [beq_iff_eq] at hpe
    rw [nrmIssuesOf_types ops m a ha] at hpe
    cases hpe)]
  rw [List.filter_eq_nil_iff.mpr (fun a ha hpe => by
    rw [beq_iff_eq] at hpe
    rw [uvIssuesOf_types ops m a ha] at hpe
    cases hpe)]
  rw [List.filter_eq_nil_iff.mpr (fun a ha hpe => by
    rw [beq_iff_eq] at hpe
    rw [sharpIssuesOf_types ops m (buildTopology m).1 a ha] at hpe
    cases hpe)]
  simp

/-- C4: a mesh with exactly one coincident vertex pair `(i, j)` (and all
other pairs strictly farther apart than the 1e-4 threshold) yields exactly
one Overlapping Vertices issue, with severity 1, `elementIndex = i` (the
lower index) and `relatedElements = [j]` (the higher index). -/
theorem c4_overlapping_pair (ops : FloatOps F) (m : Mesh F) (i j : Nat)
    (hij : i < j) (hj : j < m.vertices.length)
    (hx : (vtx m i).x = (vtx m j).x)
    (hy : (vtx m i).y = (vtx m j).y)
    (hz : (vtx m i).z = (vtx m j).z)
    (hothers : ∀ a b : Nat, a < b → b < m.vertices.length →
      (a, b) ≠ (i, j) → (1 / 10000) * (1 / 10000) < vDistSq m a b)
    (hsqrt : ops.sqrt 0 = 0) :
    (analyzeQuality ops m initState).issues.filter
        (fun iss => iss.type == IssueType.overlappingVertices) =
      [⟨IssueType.overlappingVertices, i, 1, [j]⟩] := by
  have hd : vDistSq m i j = 0 := by
    simp [vDistSq, hx, hy, hz]
  have hov : ovOpt ops m (i, j) =
      some ⟨IssueType.overlappingVertices, i, 1, [j]⟩ := by
    unfold ovOpt
    rw [if_pos (by rw [hd]; norm_num)]
    rw [hd, hsqrt]
    norm_num
  have hnone : ∀ p ∈ allPairs m.vertices.length, p ≠ (i, j) →
      ovOpt ops m p = none := by
    intro p hp hpij
    rcases (mem_allPairs _ p).mp hp with ⟨h1, h2⟩
    have := hothers p.1 p.2 h1 h2 (by
      intro he
      exact hpij (Prod.ext_iff.mpr ⟨congrArg Prod.fst he,
        congrArg Prod.snd he⟩))
    unfold ovOpt
    rw [if_neg (not_lt.mpr (le_of_lt this))]
  rw [analyzeQuality_spec]
  show (allIssuesOf ops m).filter _ = _
  rw [filter_overlapping]
  unfold ovIssuesOf
  exact filterMap_single _ _ (i, j) _ (nodup_allPairs _)
    ((mem_allPairs _ (i, j)).mpr ⟨hij, hj⟩) hnone hov

/-- C4 (witness): the zero-face fixture with coincident vertices 0 and 1. -/
theorem c4_witness :
    (analyzeQuality stubOps ovMesh initState).issues.filter
        (fun iss => iss.type == IssueType.overlappingVertices) =
      [⟨IssueType.overlappingVertices, 0, 1, [1]⟩] :=
  c4_overlapping_pair stubOps ovMesh 0 1 (by decide) (by decide)
    rfl rfl rfl
    (by
      intro a b hab hb hne
      have hb2 : b < 2 := hb
      interval_cases b <;> interval_cases a <;> simp_all)
    rfl

end ClaimC4

section ClaimC5

variable {F : Type} [LinearOrderedField F]

lemma pairLt_irrefl (p : Nat × Nat) : pairLt p p = false := by
  simp [pairLt]

lemma pairLt_trans {a b c : Nat × Nat} (h1 : pairLt a b = true)
    (h2 : pairLt b c = true) : pairLt a c = true := by
  simp only [pairLt, Bool.or_eq_true, Bool.and_eq_true, decide_eq_true_eq,
    beq_iff_eq] at h1 h2 ⊢
  omega

lemma pairLt_total {a b : Nat × Nat} (hne : (a == b) = false)
    (hnlt : pairLt a b = false) : pairLt b a = true := by
  rcases a with ⟨a1, a2⟩
  rcases b with ⟨b1, b2⟩
  simp only [pairLt, Bool.or_eq_false_iff, Bool.and_eq_false_iff,
    Bool.or_eq_true, Bool.and_eq_true, decide_eq_true_eq, decide_eq_false_iff_not,
    beq_iff_eq, beq_eq_false_iff_ne, ne_eq, Prod.mk.injEq] at hne hnlt ⊢
  omega

lemma mem_mapInsert_keys (k : Nat × Nat) (v : Nat)
    (l : List ((Nat × Nat) × List Nat)) :
    ∀ x ∈ mapInsert k v l, x.1 = k ∨ x.1 ∈ l.map Prod.fst := by
  induction l with
  | nil =>
    intro x hx
    rcases List.mem_singleton.mp hx with rfl
    exact Or.inl rfl
  | cons a l ih =>
    intro x hx
    unfold mapInsert at hx
    split at hx
    · rcases List.mem_cons.mp hx with rfl | hx2
      · exact Or.inr (by
          rw [List.map_cons]
          exact List.mem_cons.mpr (Or.inl rfl))
      · exact Or.inr (by
          rw [List.map_cons]
          exact List.mem_cons.mpr (Or.inr (List.mem_map_of_mem Prod.fst hx2)))
    · split at hx
      · rcases List.mem_cons.mp hx with rfl | hx2
        · exact Or.inl rfl
        · rcases List.mem_cons.mp hx2 with rfl | hx3
          · exact Or.inr (by
              rw [List.map_cons]
              exact List.mem_cons.mpr (Or.inl rfl))
          · exact Or.inr (by
              rw [List.map_cons]
              exact List.mem_cons.mpr
                (Or.inr (List.mem_map_of_mem Prod.fst hx3)))
      · rcases List.mem_cons.mp hx with rfl | hx2
        · exact Or.inr (by
            rw [List.map_cons]
            exact List.mem_cons.mpr (Or.inl rfl))
        · rcases ih x hx2 with h | h
          · exact Or.inl h
          · exact Or.inr (by
              rw [List.map_cons]
              exact List.mem_cons.mpr (Or.inr h))

lemma mapInsert_sorted (k : Nat × Nat) (v : Nat)
    (l : List ((Nat × Nat) × List Nat)) (h : SortedKeys l) :
    SortedKeys (mapInsert k v l) := by
  induction l with
  | nil => exact List.pairwise_singleton _ _
  | cons a l ih =>
    rcases List.pairwise_cons.mp h with ⟨hhead, htail⟩
    unfold mapInsert
    split
    next heq =>
      exact List.pairwise_cons.mpr ⟨hhead, htail⟩
    · split
      next hlt =>
        refine List.pairwise_cons.mpr ⟨?_, List.pairwise_cons.mpr
          ⟨hhead, htail⟩⟩
        intro y hy
        rcases List.mem_cons.mp hy with rfl | hy2
        · exact hlt
        · exact pairLt_trans hlt (hhead y hy2)
      next heq hnlt =>
        refine List.pairwise_cons.mpr ⟨?_, ih htail⟩
        intro y hy
        rcases mem_mapInsert_keys k v l y hy with h1 | h1
        · rw [h1]
          exact pairLt_total (by simpa using heq)
            (by simpa using hnlt)
        · rcases List.mem_map.mp h1 with ⟨z, hz, hz2⟩
          rw [← hz2]
          exact hhead z hz

lemma topoInner_sorted (face : Face) (faceIdx : Nat) (l : List Nat) :
    ∀ acc : List ((Nat × Nat) × List Nat) × List (List Nat),
      SortedKeys acc.1 →
      SortedKeys ((l.foldl (topoEdgeStep face faceIdx) acc)).1 := by
  induction l with
  | nil => intro acc h; exact h
  | cons a l ih =>
    intro acc h
    rw [List.foldl_cons]
    exact ih _ (mapInsert_sorted _ _ _ h)

lemma buildTopology_sorted (m : Mesh F) : SortedKeys (buildTopology m).1 := by
  have h : ∀ (l : List Nat)
      (acc : List ((Nat × Nat) × List Nat) × List (List Nat)),
      SortedKeys acc.1 →
      SortedKeys ((l.foldl (fun acc faceIdx =>
        (List.range (m.faces.getD faceIdx dFace).vertexIndices.length).foldl
          (topoEdgeStep (m.faces.getD faceIdx dFace) faceIdx) acc) acc).1) := by
    intro l
    induction l with
    | nil => intro acc hacc; exact hacc
    | cons a l ih =>
      intro acc hacc
      rw [List.foldl_cons]
      exact ih _ (topoInner_sorted _ _ _ _ hacc)
  exact h _ _ List.Pairwise.nil

lemma keys_nodup (efm : List ((Nat × Nat) × List Nat))
    (h : SortedKeys efm) : (efm.map Prod.fst).Nodup := by
  have h2 : List.Pairwise
      (fun x y : (Nat × Nat) × List Nat => x.1 ≠ y.1) efm := by
    refine h.imp ?_
    intro a b hab he
    rw [he, pairLt_irrefl] at hab
    cases hab
  exact List.pairwise_map.mpr h2

lemma nmOpt_eq_some {ef : (Nat × Nat) × List Nat} {iss : MeshIssue F}
    (h : nmOpt ef = some iss) :
    ef.2.length > 2 ∧
      iss = ⟨IssueType.nonManifoldEdge, ef.1.1,
        min 1 (((ef.2.length - 2 : Nat) : F) / 4), [ef.1.2]⟩ := by
  unfold nmOpt at h
  split_ifs at h with hlen
  · cases h
    exact ⟨hlen, rfl⟩

lemma nm_filter_single (e : Nat × Nat) (l : List Nat) (hlen : l.length > 2) :
    ∀ efm : List ((Nat × Nat) × List Nat),
      (efm.map Prod.fst).Nodup → (e, l) ∈ efm →
      (nmIssuesOf (F := F) efm).filter (nmPred e) =
        [⟨IssueType.nonManifoldEdge, e.1,
          min 1 (((l.length - 2 : Nat) : F) / 4), [e.2]⟩] := by
  intro efm
  induction efm with
  | nil => intro _ hmem; cases hmem
  | cons a rest ih =>
    intro hnd hmem
    have hndr : (rest.map Prod.fst).Nodup := by
      rw [List.map_cons] at hnd
      exact (List.nodup_cons.mp hnd).2
    have hnotin : a.1 ∉ rest.map Prod.fst := by
      rw [List.map_cons] at hnd
      exact (List.nodup_cons.mp hnd).1
    rcases List.mem_cons.mp hmem with heq | hmem2
    · have ha : a = (e, l) := heq.symm
      subst ha
      have hsome : nmOpt (F := F) (e, l) =
          some ⟨IssueType.nonManifoldEdge, e.1,
            min 1 (((l.length - 2 : Nat) : F) / 4), [e.2]⟩ := by
        unfold nmOpt
        rw [if_pos hlen]
      unfold nmIssuesOf
      rw [List.filterMap_cons_some hsome,
        List.filter_cons_of_pos (by simp [nmPred]),
        List.filter_eq_nil_iff.mpr ?_]
      intro b hb hpb
      rcases List.mem_filterMap.mp hb with ⟨ef, hef, hefeq⟩
      rcases nmOpt_eq_some hefeq with ⟨_, rfl⟩
      simp only [nmPred, Bool.and_eq_true, beq_iff_eq] at hpb
      have hkey : ef.1 = e := by
        rcases hpb with ⟨⟨_, h1⟩, h2⟩
        have h2' : ef.1.2 = e.2 := by
          injection h2 with hh _
        exact Prod.ext h1 h2'
      have hmm2 : ef.1 ∈ rest.map Prod.fst :=
        List.mem_map_of_mem Prod.fst hef
      rw [hkey] at hmm2
      exact hnotin hmm2
    · have hane : a.1 ≠ e := by
        intro he
        exact hnotin (he ▸ List.mem_map_of_mem Prod.fst hmem2)
      unfold nmIssuesOf
      rcases hopt : nmOpt (F := F) a with _ | iss
      · rw [List.filterMap_cons_none hopt]
        exact ih hndr hmem2
      · rw [List.filterMap_cons_some hopt]
        rcases nmOpt_eq_some hopt with ⟨_, rfl⟩
        rw [List.filter_cons_of_neg ?_]
        · exact ih hndr hmem2
        · intro hpb
          simp only [nmPred, Bool.and_eq_true, beq_iff_eq] at hpb
          rcases hpb with ⟨⟨_, h1⟩, h2⟩
          have h2' : a.1.2 = e.2 := by
            injection h2 with hh _
          exact hane (Prod.ext h1 h2')

lemma nmIssuesOf_length (efm : List ((Nat × Nat) × List Nat)) :
    (nmIssuesOf (F := F) efm).length =
      (efm.filter (fun ef => ef.2.length > 2)).length := by
  induction efm with
  | nil => rfl
  | cons a rest ih =>
    by_cases h : a.2.length > 2
    · have hsome : nmOpt (F := F) a =
          some ⟨IssueType.nonManifoldEdge, a.1.1,
            min 1 (((a.2.length - 2 : Nat) : F) / 4), [a.1.2]⟩ := by
        unfold nmOpt
        rw [if_pos h]
      unfold nmIssuesOf at ih ⊢
      rw [List.filterMap_cons_some hsome,
        List.filter_cons_of_pos (by simpa using h)]
      simpa using ih
    · have hnone : nmOpt (F := F) a = none := by
        unfold nmOpt
        rw [if_neg h]
      unfold nmIssuesOf at ih ⊢
      rw [List.filterMap_cons_none hnone,
        List.filter_cons_of_neg (by simpa using h)]
      exact ih

/-- Filtering the full run's issues with the Non-Manifold Edge predicate for
key `e` only sees the non-manifold pass's output. -/
lemma filter_nm (ops : FloatOps F) (m : Mesh F) (e : Nat × Nat) :
    (allIssuesOf ops m).filter (nmPred e) =
      (nmIssuesOf (F := F) (buildTopology m).1).filter (nmPred e) := by
  have hdeg : (degIssuesOf ops m).filter (nmPred e) = [] :=
    List.filter_eq_nil_iff.mpr (fun a ha hpe => by
      simp only [nmPred, Bool.and_eq_true, beq_iff_eq] at hpe
      rw [degIssuesOf_types ops m a ha] at hpe
      cases hpe.1.1)
  have hasp : (aspIssuesOf ops m).filter (nmPred e) = [] :=
    List.filter_eq_nil_iff.mpr (fun a ha hpe => by
      simp only [nmPred, Bool.and_eq_true, beq_iff_eq] at hpe
      rw [aspIssuesOf_types ops m a ha] at hpe
      cases hpe.1.1)
  have hval : (valIssuesOf (F := F) (buildTopology m).2).filter (nmPred e) =
      [] :=
    List.filter_eq_nil_iff.mpr (fun a ha hpe => by
      simp only [nmPred, Bool.and_eq_true, beq_iff_eq] at hpe
      rcases valIssuesOf_types _ a ha with h | h <;> rw [h] at hpe <;>
        cases hpe.1.1)
  have hov : (ovIssuesOf ops m).filter (nmPred e) = [] :=
    List.filter_eq_nil_iff.mpr (fun a ha hpe => by
      simp only [nmPred, Bool.and_eq_true, beq_iff_eq] at hpe
      rw [ovIssuesOf_types ops m a ha] at hpe
      cases hpe.1.1)
  have hnrm : (nrmIssuesOf ops m).filter (nmPred e) = [] :=
    List.filter_eq_nil_iff.mpr (fun a ha hpe => by
      simp only [nmPred, Bool.and_eq_true, beq_iff_eq] at hpe
      rw [nrmIssuesOf_types ops m a ha] at hpe
      cases hpe.1.1)
  have huv : (uvIssuesOf ops m).filter (nmPred e) = [] :=
    List.filter_eq_nil_iff.mpr (fun a ha hpe => by
      simp only [nmPred, Bool.and_eq_true, beq_iff_eq] at hpe
      rw [uvIssuesOf_types ops m a ha] at hpe
      cases hpe.1.1)
  have hsharp : (sharpIssuesOf ops m (buildTopology m).1).filter (nmPred e) =
      [] :=
    List.filter_eq_nil_iff.mpr (fun a ha hpe => by
      simp only [nmPred, Bool.and_eq_true, beq_iff_eq] at hpe
      rw [sharpIssuesOf_types ops m (buildTopology m).1 a ha] at hpe
      cases hpe.1.1)
  unfold allIssuesOf
  rw [List.filter_append, List.filter_append, List.filter_append,
    List.filter_append, List.filter_append, List.filter_append,
    List.filter_append, hdeg, hasp, hval, hov, hnrm, huv, hsharp]
  simp

/-- C5: for every edge key `e` whose incident-face list `l` in the edge→faces
map has more than two entries, `analyzeQuality` produces exactly one
Non-Manifold Edge issue for that edge, with severity `min 1 ((n-2)/4)`; the
non-manifold edge count equals the number of such edges (one increment per
edge); an edge shared by exactly 3 faces gets severity 1/4. -/
theorem c5_nonmanifold_edge (ops : FloatOps F) (m : Mesh F) (e : Nat × Nat)
    (l : List Nat) (hmem : (e, l) ∈ (buildTopology m).1)
    (hlen : l.length > 2) :
    (analyzeQuality ops m initState).issues.filter (nmPred e) =
      [⟨IssueType.nonManifoldEdge, e.1,
        min 1 (((l.length - 2 : Nat) : F) / 4), [e.2]⟩] ∧
    (analyzeQuality ops m initState).metrics.nonManifoldEdgeCount =
      ((buildTopology m).1.filter (fun ef => ef.2.length > 2)).length ∧
    (l.length = 3 → min 1 (((l.length - 2 : Nat) : F) / 4) = 1 / 4) := by
  refine ⟨?_, ?_, ?_⟩
  · rw [analyzeQuality_spec]
    show (allIssuesOf ops m).filter _ = _
    rw [filter_nm]
    exact nm_filter_single e l hlen _
      (keys_nodup _ (buildTopology_sorted m)) hmem
  · rw [analyzeQuality_spec]
    show initState.metrics.nonManifoldEdgeCount + _ = _
    rw [nmIssuesOf_length]
    simp [initState, initMetrics]
  · intro h3
    rw [h3]
    norm_num

/-- C5 (witness): three faces of the fixture share edge `(0, 1)`. -/
theorem c5_witness :
    ((0, 1), [0, 1, 2]) ∈ (buildTopology nmMesh).1 ∧
    (([0, 1, 2] : List Nat).length > 2) ∧
    ((analyzeQuality stubOps nmMesh initState).issues.filter (nmPred (0, 1)) =
      [⟨IssueType.nonManifoldEdge, 0,
        min 1 ((([0, 1, 2].length - 2 : Nat) : ℚ) / 4), [1]⟩] ∧
    (analyzeQuality stubOps nmMesh initState).metrics.nonManifoldEdgeCount =
      ((buildTopology nmMesh).1.filter
        (fun ef => ef.2.length > 2)).length ∧
    (([0, 1, 2] : List Nat).length = 3 →
      min 1 ((([0, 1, 2].length - 2 : Nat) : ℚ) / 4) = 1 / 4)) :=
  ⟨by decide, by decide,
    c5_nonmanifold_edge stubOps nmMesh (0, 1) [0, 1, 2] (by decide)
      (by decide)⟩

end ClaimC5

section ClaimC6

variable {F : Type} [LinearOrderedField F]

lemma calculateUVStretch_eq (ops : FloatOps F) (m : Mesh F) (faceIdx : Nat) :
    calculateUVStretch ops m faceIdx =
      if (fc m faceIdx).vertexIndices.length < 3 ∨
          (fc m faceIdx).texCoordIndices.length < 3 then 0
      else if faceArea ops m faceIdx < 1 / 1000000 ∨
          uvMapArea m faceIdx < 1 / 1000000 then 0
      else max (faceArea ops m faceIdx / uvMapArea m faceIdx)
        (uvMapArea m faceIdx / faceArea ops m faceIdx) := by
  simp only [calculateUVStretch, faceArea, uvMapArea]
  by_cases h1 : (fc m faceIdx).vertexIndices.length < 3 ∨
      (fc m faceIdx).texCoordIndices.length < 3
  · rw [if_pos h1, if_pos (by
      simp only [Bool.or_eq_true, decide_eq_true_eq]
      exact h1)]
  · rw [if_neg h1]
    push_neg at h1
    rw [if_neg (by
      simp only [Bool.or_eq_true, decide_eq_true_eq, not_or, not_lt]
      exact h1)]
    by_cases h2 : calculateTriangleArea ops m
        ((fc m faceIdx).vertexIndices.getD 0 0)
        ((fc m faceIdx).vertexIndices.getD 1 0)
        ((fc m faceIdx).vertexIndices.getD 2 0) < 1 / 1000000 ∨
        (1 : F) / 2 * |((vtx m ((fc m faceIdx).vertexIndices.getD 1 0)).u -
            (vtx m ((fc m faceIdx).vertexIndices.getD 0 0)).u) *
          ((vtx m ((fc m faceIdx).vertexIndices.getD 2 0)).v -
            (vtx m ((fc m faceIdx).vertexIndices.getD 0 0)).v) -
          ((vtx m ((fc m faceIdx).vertexIndices.getD 2 0)).u -
            (vtx m ((fc m faceIdx).vertexIndices.getD 0 0)).u) *
          ((vtx m ((fc m faceIdx).vertexIndices.getD 1 0)).v -
            (vtx m ((fc m faceIdx).vertexIndices.getD 0 0)).v)| <
          1 / 1000000
    · rw [if_pos h2, if_pos (by
        simp only [Bool.or_eq_true, decide_eq_true_eq]
        exact h2)]
    · rw [if_neg h2]
      push_neg at h2
      rw [if_neg (by
        simp only [Bool.or_eq_true, decide_eq_true_eq, not_or, not_lt]
        exact h2)]

/-- C6: the UV-stretch function returns 0 when the face has fewer than three
vertex or texcoord indices, or when either the 3D area or the absolute UV
area is below 1e-6; otherwise it returns the larger of the two area ratios,
which is at least 1.  Hence its result is always 0 or at least 1. -/
theorem c6_uv_stretch (ops : FloatOps F) (m : Mesh F) (faceIdx : Nat) :
    ((fc m faceIdx).vertexIndices.length < 3 ∨
        (fc m faceIdx).texCoordIndices.length < 3 →
      calculateUVStretch ops m faceIdx = 0) ∧
    (faceArea ops m faceIdx < 1 / 1000000 ∨
        uvMapArea m faceIdx < 1 / 1000000 →
      calculateUVStretch ops m faceIdx = 0) ∧
    (¬((fc m faceIdx).vertexIndices.length < 3 ∨
        (fc m faceIdx).texCoordIndices.length < 3) →
      ¬(faceArea ops m faceIdx < 1 / 1000000 ∨
        uvMapArea m faceIdx < 1 / 1000000) →
      calculateUVStretch ops m faceIdx =
        max (faceArea ops m faceIdx / uvMapArea m faceIdx)
          (uvMapArea m faceIdx / faceArea ops m faceIdx) ∧
      1 ≤ calculateUVStretch ops m faceIdx) ∧
    (calculateUVStretch ops m faceIdx = 0 ∨
      1 ≤ calculateUVStretch ops m faceIdx) := by
  rw [calculateUVStretch_eq]
  by_cases h1 : (fc m faceIdx).vertexIndices.length < 3 ∨
      (fc m faceIdx).texCoordIndices.length < 3
  · rw [if_pos h1]
    exact ⟨fun _ => rfl, fun _ => rfl, fun hn => absurd h1 hn, Or.inl rfl⟩
  · rw [if_neg h1]
    by_cases h2 : faceArea ops m faceIdx < 1 / 1000000 ∨
        uvMapArea m faceIdx < 1 / 1000000
    · rw [if_pos h2]
      exact ⟨fun h => absurd h h1, fun _ => rfl, fun _ hn => absurd h2 hn,
        Or.inl rfl⟩
    · rw [if_neg h2]
      push_neg at h2
      have ha : (0 : F) < faceArea ops m faceIdx :=
        lt_of_lt_of_le (by norm_num) h2.1
      have hu : (0 : F) < uvMapArea m faceIdx :=
        lt_of_lt_of_le (by norm_num) h2.2
      have hone : 1 ≤ max (faceArea ops m faceIdx / uvMapArea m faceIdx)
          (uvMapArea m faceIdx / faceArea ops m faceIdx) := by
        rcases le_total (faceArea ops m faceIdx) (uvMapArea m faceIdx) with
          h | h
        · exact le_max_of_le_right ((one_le_div ha).mpr h)
        · exact le_max_of_le_left ((one_le_div hu).mpr h)
      exact ⟨fun h => absurd h h1,
        fun h => absurd h (by push_neg; exact h2),
        fun _ _ => ⟨rfl, hone⟩, Or.inr hone⟩

/-- C6 (witness): the result shape evaluated on the right-triangle
fixture. -/
theorem c6_witness :
    ((fc (triMesh (F := ℚ)) 0).vertexIndices.length < 3 ∨
        (fc (triMesh (F := ℚ)) 0).texCoordIndices.length < 3 →
      calculateUVStretch stubOps triMesh 0 = 0) ∧
    (faceArea stubOps triMesh 0 < 1 / 1000000 ∨
        uvMapArea (triMesh (F := ℚ)) 0 < 1 / 1000000 →
      calculateUVStretch stubOps triMesh 0 = 0) ∧
    (¬((fc (triMesh (F := ℚ)) 0).vertexIndices.length < 3 ∨
        (fc (triMesh (F := ℚ)) 0).texCoordIndices.length < 3) →
      ¬(faceArea stubOps triMesh 0 < 1 / 1000000 ∨
        uvMapArea (triMesh (F := ℚ)) 0 < 1 / 1000000) →
      calculateUVStretch stubOps triMesh 0 =
        max (faceArea stubOps triMesh 0 / uvMapArea (triMesh (F := ℚ)) 0)
          (uvMapArea (triMesh (F := ℚ)) 0 / faceArea stubOps triMesh 0) ∧
      1 ≤ calculateUVStretch stubOps triMesh 0) ∧
    (calculateUVStretch stubOps triMesh 0 = 0 ∨
      1 ≤ calculateUVStretch stubOps triMesh 0) :=
  c6_uv_stretch stubOps triMesh 0

end ClaimC6

section ClaimC7

variable {F : Type} [LinearOrderedField F]

lemma calculateAspectRatio_eq (ops : FloatOps F) (m : Mesh F)
    (v1Idx v2Idx v3Idx : Nat) :
    calculateAspectRatio ops m v1Idx v2Idx v3Idx =
      if minHeightOf ops m v1Idx v2Idx v3Idx > 1 / 1000000 then
        maxEdgeOf ops m v1Idx v2Idx v3Idx / minHeightOf ops m v1Idx v2Idx v3Idx
      else fltMax := rfl

/-- C7: the aspect-ratio function is total and never divides by a near-zero
quantity.  If the area is at most 1e-6 the minimum height is defined as 0;
if the minimum height is at most 1e-6 the function returns the maximum
representable float instead of dividing; otherwise it returns the longest
edge divided by `2*area/longestEdge`, where that divisor exceeds 1e-6, the
area guard held, and the longest edge is strictly positive (so the inner
division is well-defined too). -/
theorem c7_aspect_ratio_guards (ops : FloatOps F) (m : Mesh F)
    (v1Idx v2Idx v3Idx : Nat) :
    (¬(calculateTriangleArea ops m v1Idx v2Idx v3Idx > 1 / 1000000) →
      minHeightOf ops m v1Idx v2Idx v3Idx = 0) ∧
    (¬(minHeightOf ops m v1Idx v2Idx v3Idx > 1 / 1000000) →
      calculateAspectRatio ops m v1Idx v2Idx v3Idx = fltMax) ∧
    (minHeightOf ops m v1Idx v2Idx v3Idx > 1 / 1000000 →
      calculateAspectRatio ops m v1Idx v2Idx v3Idx =
        maxEdgeOf ops m v1Idx v2Idx v3Idx /
          minHeightOf ops m v1Idx v2Idx v3Idx ∧
      calculateTriangleArea ops m v1Idx v2Idx v3Idx > 1 / 1000000 ∧
      0 < maxEdgeOf ops m v1Idx v2Idx v3Idx ∧
      minHeightOf ops m v1Idx v2Idx v3Idx =
        2 * calculateTriangleArea ops m v1Idx v2Idx v3Idx /
          maxEdgeOf ops m v1Idx v2Idx v3Idx) := by
  refine ⟨?_, ?_, ?_⟩
  · intro h
    unfold minHeightOf
    rw [if_neg h]
  · intro h
    rw [calculateAspectRatio_eq, if_neg h]
  · intro h
    have harea : calculateTriangleArea ops m v1Idx v2Idx v3Idx >
        1 / 1000000 := by
      by_contra hn
      have h0 : minHeightOf ops m v1Idx v2Idx v3Idx = 0 := by
        unfold minHeightOf
        rw [if_neg hn]
      rw [h0] at h
      norm_num at h
    have hheight : minHeightOf ops m v1Idx v2Idx v3Idx =
        2 * calculateTriangleArea ops m v1Idx v2Idx v3Idx /
          maxEdgeOf ops m v1Idx v2Idx v3Idx := by
      unfold minHeightOf
      rw [if_pos harea]
    have hedge : 0 < maxEdgeOf ops m v1Idx v2Idx v3Idx := by
      rcases lt_trichotomy (maxEdgeOf ops m v1Idx v2Idx v3Idx) 0 with
        hneg | hzero | hpos
      · exfalso
        have hnum : 0 < 2 * calculateTriangleArea ops m v1Idx v2Idx v3Idx :=
          by
            have h6 : (0 : F) < 1 / 1000000 := by norm_num
            linarith
        exact absurd h (by
          rw [hheight]
          have := div_neg_of_pos_of_neg hnum hneg
          push_neg
          exact le_of_lt (lt_of_lt_of_le this (by norm_num)))
      · exfalso
        rw [hheight, hzero, div_zero] at h
        norm_num at h
      · exact hpos
    exact ⟨by rw [calculateAspectRatio_eq, if_pos h], harea, hedge, hheight⟩

/-- C7 (witness): the guard structure evaluated on the right-triangle
fixture. -/
theorem c7_witness :
    (¬(calculateTriangleArea stubOps (triMesh (F := ℚ)) 0 1 2 > 1 / 1000000) →
      minHeightOf stubOps triMesh 0 1 2 = 0) ∧
    (¬(minHeightOf stubOps (triMesh (F := ℚ)) 0 1 2 > 1 / 1000000) →
      calculateAspectRatio stubOps triMesh 0 1 2 = fltMax) ∧
    (minHeightOf stubOps (triMesh (F := ℚ)) 0 1 2 > 1 / 1000000 →
      calculateAspectRatio stubOps triMesh 0 1 2 =
        maxEdgeOf stubOps triMesh 0 1 2 / minHeightOf stubOps triMesh 0 1 2 ∧
      calculateTriangleArea stubOps (triMesh (F := ℚ)) 0 1 2 > 1 / 1000000 ∧
      0 < maxEdgeOf stubOps (triMesh (F := ℚ)) 0 1 2 ∧
      minHeightOf stubOps (triMesh (F := ℚ)) 0 1 2 =
        2 * calculateTriangleArea stubOps triMesh 0 1 2 /
          maxEdgeOf stubOps triMesh 0 1 2) :=
  c7_aspect_ratio_guards stubOps triMesh 0 1 2

end ClaimC7

section ClaimC8

variable {F : Type} [LinearOrderedField F]

/-- C8: on the triangle `(0,0,0), (1,0,0), (0,1,0)` the area function
returns 0.5 and the aspect-ratio function returns 2.0, within 1e-4 (with
exact field arithmetic the values are exact), for any square-root operation
that is correct at the two points 1 and 2 where it is consulted. -/
theorem c8_regression (ops : FloatOps F) (h1 : ops.sqrt 1 = 1)
    (h2 : 0 ≤ ops.sqrt 2) (h3 : ops.sqrt 2 ^ 2 = 2) :
    |calculateTriangleArea ops (triMesh (F := F)) 0 1 2 - 1 / 2| ≤ 1 / 10000 ∧
    |calculateAspectRatio ops (triMesh (F := F)) 0 1 2 - 2| ≤ 1 / 10000 := by
  have hs2_1 : (1 : F) < ops.sqrt 2 := by nlinarith
  have hs2_2 : ops.sqrt 2 < 2 := by nlinarith
  have hs2_pos : (0 : F) < ops.sqrt 2 := by linarith
  have harea : calculateTriangleArea ops (triMesh (F := F)) 0 1 2 = 1 / 2 := by
    have e : calculateTriangleArea ops (triMesh (F := F)) 0 1 2 =
        1 / 2 * ops.sqrt 1 := by
      simp only [calculateTriangleArea, triMesh, cV, vtx, dV]
      norm_num
    rw [e, h1]
    norm_num
  have hd01 : calculateDistance ops (triMesh (F := F)) 0 1 = 1 := by
    have e : calculateDistance ops (triMesh (F := F)) 0 1 = ops.sqrt 1 := by
      simp only [calculateDistance, triMesh, cV, vtx, dV]
      norm_num
    rw [e, h1]
  have hd12 : calculateDistance ops (triMesh (F := F)) 1 2 = ops.sqrt 2 := by
    simp only [calculateDistance, triMesh, cV, vtx, dV]
    norm_num
  have hd20 : calculateDistance ops (triMesh (F := F)) 2 0 = 1 := by
    have e : calculateDistance ops (triMesh (F := F)) 2 0 = ops.sqrt 1 := by
      simp only [calculateDistance, triMesh, cV, vtx, dV]
      norm_num
    rw [e, h1]
  have hmaxEdge : maxEdgeOf ops (triMesh (F := F)) 0 1 2 = ops.sqrt 2 := by
    unfold maxEdgeOf
    rw [hd01, hd12, hd20, max_eq_left (le_of_lt hs2_1),
      max_eq_right (le_of_lt hs2_1)]
  have hminh : minHeightOf ops (triMesh (F := F)) 0 1 2 = 1 / ops.sqrt 2 := by
    unfold minHeightOf
    rw [if_pos (by rw [harea]; norm_num), harea, hmaxEdge]
    ring_nf
  have hmh_gt : minHeightOf ops (triMesh (F := F)) 0 1 2 > 1 / 1000000 := by
    rw [hminh]
    have hhalf : (1 : F) / 2 < 1 / ops.sqrt 2 :=
      one_div_lt_one_div_of_lt hs2_pos hs2_2
    have : (1 : F) / 1000000 < 1 / 2 := by norm_num
    linarith
  have hresult : calculateAspectRatio ops (triMesh (F := F)) 0 1 2 = 2 := by
    rw [calculateAspectRatio_eq, if_pos hmh_gt, hminh, hmaxEdge]
    rw [sq] at h3
    field_simp
    linarith [h3]
  rw [harea, hresult]
  norm_num

/-- C8 (witness): the regression fixture over `ℝ` with the genuine square
root. -/
theorem c8_witness :
    (Real.sqrt 1 = 1 ∧ 0 ≤ Real.sqrt 2 ∧ Real.sqrt 2 ^ 2 = 2) ∧
    (|calculateTriangleArea ⟨Real.sqrt, fun _ => 0⟩ (triMesh (F := ℝ)) 0 1 2 -
        1 / 2| ≤ 1 / 10000 ∧
      |calculateAspectRatio ⟨Real.sqrt, fun _ => 0⟩ (triMesh (F := ℝ)) 0 1 2 -
        2| ≤ 1 / 10000) :=
  ⟨⟨Real.sqrt_one, Real.sqrt_nonneg 2, Real.sq_sqrt (by norm_num)⟩,
    c8_regression ⟨Real.sqrt, fun _ => 0⟩ Real.sqrt_one (Real.sqrt_nonneg 2)
      (Real.sq_sqrt (by norm_num))⟩

end ClaimC8

section ClaimC9

variable {F : Type} [LinearOrderedField F]

lemma foldl_push_type (t : IssueType) (l : List (MeshIssue F)) :
    ∀ acc : List (MeshIssue F),
      l.foldl (fun acc issue =>
        if issue.type = t then acc ++ [issue] else acc) acc =
      acc ++ l.filter (fun iss => iss.type == t) := by
  induction l with
  | nil => intro acc; simp
  | cons a l ih =>
    intro acc
    rw [List.foldl_cons]
    by_cases h : a.type = t
    · rw [if_pos h, ih, List.filter_cons_of_pos (by simp [h])]
      simp [List.append_assoc]
    · rw [if_neg h, ih, List.filter_cons_of_neg (by simp [h])]

lemma foldl_push_severity (s : F) (l : List (MeshIssue F)) :
    ∀ acc : List (MeshIssue F),
      l.foldl (fun acc issue =>
        if issue.severity ≥ s then acc ++ [issue] else acc) acc =
      acc ++ l.filter (fun iss => decide (s ≤ iss.severity)) := by
  induction l with
  | nil => intro acc; simp
  | cons a l ih =>
    intro acc
    rw [List.foldl_cons]
    by_cases h : a.severity ≥ s
    · rw [if_pos h, ih, List.filter_cons_of_pos (by simp [h])]
      simp [List.append_assoc]
    · rw [if_neg h, ih, List.filter_cons_of_neg (by simp [h])]

/-- C9: `getIssuesByType` returns exactly the order-preserving subsequence
of the stored issues whose type equals the query (a filter, hence a
sublist), and `getIssuesBySeverity` returns exactly the subsequence whose
severity is at least the threshold (inclusive comparison); both are pure
reads of the state. -/
theorem c9_filter_views (st : AState F) (t : IssueType) (s : F) :
    getIssuesByType st t =
      (getIssues st).filter (fun iss => iss.type == t) ∧
    List.Sublist (getIssuesByType st t) (getIssues st) ∧
    getIssuesBySeverity st s =
      (getIssues st).filter (fun iss => decide (s ≤ iss.severity)) ∧
    List.Sublist (getIssuesBySeverity st s) (getIssues st) := by
  have h1 : getIssuesByType st t =
      (getIssues st).filter (fun iss => iss.type == t) := by
    unfold getIssuesByType
    rw [foldl_push_type]
    simp [getIssues]
  have h2 : getIssuesBySeverity st s =
      (getIssues st).filter (fun iss => decide (s ≤ iss.severity)) := by
    unfold getIssuesBySeverity
    rw [foldl_push_severity]
    simp [getIssues]
  exact ⟨h1, h1 ▸ List.filter_sublist _, h2, h2 ▸ List.filter_sublist _⟩

end ClaimC9

section ClaimC10

variable {F : Type} [LinearOrderedField F]

lemma edgeKey_symm (a b : Nat) : edgeKey b a = edgeKey a b := by
  unfold edgeKey
  split_ifs with h1 h2 h2
  · omega
  · rfl
  · rfl
  · have h : a = b := by omega
    rw [h]

/-- C10: a face with exactly two distinct vertex indices `a, b` contributes
its index twice to the single normalized edge `(min a b, max a b)`; on a
mesh with only that face the sharp-angle pass therefore sees a 2-face
(manifold) edge and computes the dihedral angle of face 0 against itself,
which becomes both the minimum and maximum dihedral angle. -/
theorem c10_two_vertex_face (ops : FloatOps F) (vs : List (Vertex F))
    (a b : Nat) (ts : List Nat) (hab : a ≠ b)
    (hacos : ∀ x, 0 ≤ ops.acos x ∧ ops.acos x ≤ 4) :
    (buildTopology (⟨vs, [⟨[a, b], ts⟩]⟩ : Mesh F)).1 =
      [(edgeKey a b, [0, 0])] ∧
    (analyzeQuality ops (⟨vs, [⟨[a, b], ts⟩]⟩ : Mesh F)
        initState).metrics.minDihedralAngle =
      calculateDihedralAngle ops (⟨vs, [⟨[a, b], ts⟩]⟩ : Mesh F) 0 0
        (edgeKey a b).1 (edgeKey a b).2 ∧
    (analyzeQuality ops (⟨vs, [⟨[a, b], ts⟩]⟩ : Mesh F)
        initState).metrics.maxDihedralAngle =
      calculateDihedralAngle ops (⟨vs, [⟨[a, b], ts⟩]⟩ : Mesh F) 0 0
        (edgeKey a b).1 (edgeKey a b).2 := by
  have hstep0 : ∀ acc : List ((Nat × Nat) × List Nat) × List (List Nat),
      topoEdgeStep (⟨[a, b], ts⟩ : Face) 0 acc 0 =
        (mapInsert (edgeKey a b) 0 acc.1,
          addAdj (addAdj acc.2 (edgeKey a b).1 (edgeKey a b).2)
            (edgeKey a b).2 (edgeKey a b).1) := by
    intro acc
    simp only [topoEdgeStep]
    norm_num
  have hstep1 : ∀ acc : List ((Nat × Nat) × List Nat) × List (List Nat),
      topoEdgeStep (⟨[a, b], ts⟩ : Face) 0 acc 1 =
        (mapInsert (edgeKey b a) 0 acc.1,
          addAdj (addAdj acc.2 (edgeKey b a).1 (edgeKey b a).2)
            (edgeKey b a).2 (edgeKey b a).1) := by
    intro acc
    simp only [topoEdgeStep]
    norm_num
  have htopo : (buildTopology (⟨vs, [⟨[a, b], ts⟩]⟩ : Mesh F)).1 =
      [(edgeKey a b, [0, 0])] := by
    unfold buildTopology
    rw [show (Mesh.faces (⟨vs, [⟨[a, b], ts⟩]⟩ : Mesh F)).length = 1 from rfl,
      show List.range 1 = [0] from rfl, List.foldl_cons, List.foldl_nil]
    show ((List.range (Face.mk [a, b] ts).vertexIndices.length).foldl
      (topoEdgeStep (Face.mk [a, b] ts) 0)
      ([], List.replicate
        (Mesh.vertices (⟨vs, [⟨[a, b], ts⟩]⟩ : Mesh F)).length [])).1 = _
    rw [show List.range (Face.mk [a, b] ts).vertexIndices.length = [0, 1]
        from rfl,
      List.foldl_cons, List.foldl_cons, List.foldl_nil, hstep0, hstep1]
    show mapInsert (edgeKey b a) 0 (mapInsert (edgeKey a b) 0 []) = _
    rw [show mapInsert (edgeKey a b) 0 [] = [(edgeKey a b, [0])] from rfl,
      edgeKey_symm]
    simp [mapInsert]
  have hang : anglesOf ops (⟨vs, [⟨[a, b], ts⟩]⟩ : Mesh F)
      [(edgeKey a b, [0, 0])] =
      [calculateDihedralAngle ops (⟨vs, [⟨[a, b], ts⟩]⟩ : Mesh F) 0 0
        (edgeKey a b).1 (edgeKey a b).2] := rfl
  have hbound : calculateDihedralAngle ops (⟨vs, [⟨[a, b], ts⟩]⟩ : Mesh F) 0 0
      (edgeKey a b).1 (edgeKey a b).2 < fltMax :=
    edgeAngle_lt_fltMax ops hacos _ (edgeKey a b, [0, 0])
  have hnn : 0 ≤ calculateDihedralAngle ops (⟨vs, [⟨[a, b], ts⟩]⟩ : Mesh F)
      0 0 (edgeKey a b).1 (edgeKey a b).2 :=
    edgeAngle_nonneg ops hacos _ (edgeKey a b, [0, 0])
  refine ⟨htopo, ?_, ?_⟩
  · rw [analyzeQuality_spec]
    show minDFold initState.metrics.minDihedralAngle
      (anglesOf ops _ (buildTopology _).1) = _
    rw [htopo, hang]
    show minDStep initState.metrics.minDihedralAngle _ = _
    rw [show (initState : AState F).metrics.minDihedralAngle = fltMax
      from rfl]
    unfold minDStep
    rw [if_pos (Or.inl hbound)]
  · rw [analyzeQuality_spec]
    show maxDFold initState.metrics.maxDihedralAngle
      (anglesOf ops _ (buildTopology _).1) = _
    rw [htopo, hang]
    show maxDStep initState.metrics.maxDihedralAngle _ = _
    rw [show (initState : AState F).metrics.maxDihedralAngle = (0 : F)
      from rfl]
    unfold maxDStep
    rcases lt_or_eq_of_le hnn with h | h
    · rw [if_pos h]
    · rw [if_neg (by rw [← h]; exact lt_irrefl 0), ← h]

/-- C10 (witness): the two-vertex-face fixture. -/
theorem c10_witness :
    ((0 : Nat) ≠ 1) ∧
    ((buildTopology edgeMesh).1 = [(edgeKey 0 1, [0, 0])] ∧
    (analyzeQuality stubOps edgeMesh initState).metrics.minDihedralAngle =
      calculateDihedralAngle stubOps edgeMesh 0 0
        (edgeKey 0 1).1 (edgeKey 0 1).2 ∧
    (analyzeQuality stubOps edgeMesh initState).metrics.maxDihedralAngle =
      calculateDihedralAngle stubOps edgeMesh 0 0
        (edgeKey 0 1).1 (edgeKey 0 1).2) :=
  ⟨by decide,
    c10_two_vertex_face stubOps [cV 0 0 0, cV 1 0 0] 0 1 [] (by decide)
      (fun _ => ⟨le_refl 0, by norm_num [stubOps]⟩)⟩

end ClaimC10

end MeshQA
